import Mathlib

unseal Rat.sub Rat.add Rat.mul Rat.inv Rat.ofScientific

deriving instance DecidableEq for Except

/-!
Verification of the ledger engine of the kheAI MVP repository.

The definitions below are a shallow embedding of src/services/ledger.js
(class LedgerService) and of reverseJournalFromLedger from
src/services/liabilities.js.  JavaScript numbers are modelled as exact
rationals; the Redis store of per-(user, account, year, month) hashes is
modelled as a function from keys to optional buckets (hGetAll on a missing
key yields an empty object, modelled as the absence of a bucket).
-/

namespace KheaiLedger

/-! ## Chart of accounts (ledger.js constructor) -/

/-- The account `type` strings used in the chart of accounts. -/
inductive AccountType where
  | asset
  | liability
  | equity
  | revenue
  | expense
deriving DecidableEq, Repr

/-- The account `category` strings used in the chart of accounts. -/
inductive AccountCategory where
  | current
  | fixed
  | investment
  | long_term
  | capital
  | retained
  | operating
  | non_operating
  | cogs
deriving DecidableEq, Repr

/-- One chart-of-accounts record: `{ name, type, category, isContra }`.
`isContra` defaults to false; only account 1600 sets it. -/
structure Account where
  name : String
  type : AccountType
  category : AccountCategory
  isContra : Bool := false
deriving DecidableEq, Repr

open AccountType AccountCategory

/-- The `chartOfAccounts` object literal of ledger.js, as the ordered list of
its (integer key, value) pairs.  JavaScript iterates integer-like object keys
in ascending numeric order, which is the textual order of the literal.
(The apostrophe in the display name of account 3000 is dropped.) -/
def chartList : List (Nat × Account) :=
  [ (1000, { name := "Cash", type := asset, category := current })
  , (1100, { name := "Bank - Current Account", type := asset, category := current })
  , (1200, { name := "Accounts Receivable", type := asset, category := current })
  , (1300, { name := "Inventory", type := asset, category := current })
  , (1400, { name := "Prepaid Expenses", type := asset, category := current })
  , (1500, { name := "Equipment", type := asset, category := fixed })
  , (1600, { name := "Accumulated Depreciation - Equipment", type := asset,
             category := fixed, isContra := true })
  , (1700, { name := "Property", type := asset, category := fixed })
  , (1800, { name := "Bitcoin Treasury", type := asset, category := investment })
  , (2000, { name := "Accounts Payable", type := liability, category := current })
  , (2100, { name := "Accrued Expenses", type := liability, category := current })
  , (2200, { name := "Short-term Loans", type := liability, category := current })
  , (2300, { name := "GST Payable", type := liability, category := current })
  , (2400, { name := "Income Tax Payable", type := liability, category := current })
  , (2500, { name := "Long-term Debt", type := liability, category := long_term })
  , (3000, { name := "Owners Equity", type := equity, category := capital })
  , (3100, { name := "Retained Earnings", type := equity, category := retained })
  , (3200, { name := "Current Year Earnings", type := equity, category := current })
  , (4000, { name := "Sales Revenue", type := revenue, category := operating })
  , (4100, { name := "Service Revenue", type := revenue, category := operating })
  , (4200, { name := "Rental Income", type := revenue, category := operating })
  , (4300, { name := "Interest Income", type := revenue, category := non_operating })
  , (4400, { name := "Bitcoin Gains", type := revenue, category := investment })
  , (5000, { name := "Cost of Goods Sold", type := expense, category := cogs })
  , (5100, { name := "Rent Expense", type := expense, category := operating })
  , (5200, { name := "Utilities Expense", type := expense, category := operating })
  , (5300, { name := "Marketing Expense", type := expense, category := operating })
  , (5400, { name := "Office Supplies", type := expense, category := operating })
  , (5500, { name := "Professional Fees", type := expense, category := operating })
  , (5600, { name := "Depreciation Expense", type := expense, category := operating })
  , (5700, { name := "Interest Expense", type := expense, category := non_operating })
  , (5800, { name := "Bitcoin Losses", type := expense, category := investment }) ]

/-- Property access `this.chartOfAccounts[code]`: `some` account or `none`
(JavaScript `undefined`) when the code is not a key of the object. -/
def chartOfAccounts (code : Nat) : Option Account :=
  (chartList.find? fun p => p.1 == code).map Prod.snd

/-! ## General-ledger buckets and the store -/

/-- One Redis hash `ledger:{userId}:{accountCode}:{year}:{month}`, restricted
to its numeric fields (the `last_updated` timestamp is not modelled). -/
structure Bucket where
  total_debits : Rat
  total_credits : Rat
  balance : Rat
deriving DecidableEq, Repr

/-- A bucket whose fields all read as zero, which is what
`parseFloat(field || 0)` yields on a missing field. -/
def Bucket.empty : Bucket := ⟨0, 0, 0⟩

/-- Bucket key `(userId, accountCode, year, month)`. -/
abbrev BucketKey := Nat × Nat × Nat × Nat

/-- The Redis store, restricted to the ledger buckets: a key is either absent
(`hGetAll` returns an empty object) or holds a bucket. -/
def Store := BucketKey → Option Bucket

/-- The store with no buckets at all. -/
def emptyStore : Store := fun _ => none

/-- Overwrite one bucket. -/
def Store.set (s : Store) (k : BucketKey) (b : Bucket) : Store :=
  fun k2 => if k2 = k then some b else s k2

/-- Read a bucket, defaulting every numeric field to zero when the key is
absent, exactly as `parseFloat(ledgerData.f || 0)` does. -/
def Store.read (s : Store) (k : BucketKey) : Bucket :=
  (s k).getD Bucket.empty

/-- `hIncrByFloat key total_debits δ`: increments the field, creating the
hash and the field as needed. -/
def Store.incrDebits (s : Store) (k : BucketKey) (d : Rat) : Store :=
  s.set k { s.read k with total_debits := (s.read k).total_debits + d }

/-- `hIncrByFloat key total_credits δ`. -/
def Store.incrCredits (s : Store) (k : BucketKey) (c : Rat) : Store :=
  s.set k { s.read k with total_credits := (s.read k).total_credits + c }

/-- `hIncrByFloat key balance δ`. -/
def Store.incrBalance (s : Store) (k : BucketKey) (b : Rat) : Store :=
  s.set k { s.read k with balance := (s.read k).balance + b }

/-! ## Dates -/

/-- A calendar date; the time-of-day component of JavaScript `Date` values is
not modelled (all comparisons in the embedded code are between dates derived
from one another by whole-month steps, so only year/month/day matter). -/
structure Date where
  year : Nat
  month : Nat
  day : Nat
deriving DecidableEq, Repr

/-- JavaScript `d1 <= d2` on dates: lexicographic on (year, month, day). -/
def dateLe (d1 d2 : Date) : Bool :=
  d1.year < d2.year ∨
    (d1.year = d2.year ∧
      (d1.month < d2.month ∨ (d1.month = d2.month ∧ d1.day ≤ d2.day)))

/-! ## Journal entries (createJournalEntry) -/

/-- One element of `entryData.lines`: `{ account_code, debit, credit }`
with the amounts already parsed to numbers. -/
structure EntryLine where
  account_code : Nat
  debit : Rat
  credit : Rat
deriving DecidableEq, Repr

/-- The `entryData` argument of `createJournalEntry` (the reference string
and per-line descriptions are not modelled). -/
structure EntryData where
  date : Date
  description : String
  lines : List EntryLine
deriving DecidableEq, Repr

/-- One element of `journalEntry.entries` as built by `createJournalEntry`. -/
structure LineEntry where
  account_code : Nat
  account_name : String
  debit_amount : Rat
  credit_amount : Rat
deriving DecidableEq, Repr

/-- The stored journal entry (id, user, reference and timestamps are not
modelled; they never feed back into ledger arithmetic). -/
structure JournalEntry where
  date : Date
  description : String
  total_debit : Rat
  total_credit : Rat
  entries : List LineEntry
deriving DecidableEq, Repr

/-- The mutable state touched by posting: the stored journal records
(`journal:* plus user:*:journals`, kept as a list) and the ledger buckets. -/
structure LedgerState where
  journals : List JournalEntry
  buckets : Store

/-- Build one `lineEntry` from an input line:
`account_name` falls back to the string literal used by the source when the
code is not in the chart (`?.name || 'Unknown Account'`). -/
def processLine (l : EntryLine) : LineEntry :=
  { account_code := l.account_code
  , account_name :=
      match chartOfAccounts l.account_code with
      | some info => info.name
      | none => "Unknown Account"
  , debit_amount := l.debit
  , credit_amount := l.credit }

/-- The `balanceChange` computed for one line by `updateGeneralLedger`:
assets and expenses increase with debits, everything else (including an
account code missing from the chart, whose optional-chained type matches
neither string) increases with credits.  `isContra` is never consulted. -/
def balanceChangeOf (e : LineEntry) : Rat :=
  match chartOfAccounts e.account_code with
  | some info =>
      if info.type = asset ∨ info.type = expense then
        e.debit_amount - e.credit_amount
      else
        e.credit_amount - e.debit_amount
  | none => e.credit_amount - e.debit_amount

/-- The loop body of `updateGeneralLedger` for one line of a journal entry
dated in (year, month). -/
def postLine (userId year month : Nat) (s : Store) (e : LineEntry) : Store :=
  let k : BucketKey := (userId, e.account_code, year, month)
  let s1 := if 0 < e.debit_amount then s.incrDebits k e.debit_amount else s
  let s2 := if 0 < e.credit_amount then s1.incrCredits k e.credit_amount else s1
  s2.incrBalance k (balanceChangeOf e)

/-- `updateGeneralLedger(userId, journalEntry)`: apply every line of the
entry to the bucket of the entry's (year, month). -/
def updateGeneralLedger (userId : Nat) (j : JournalEntry) (s : Store) : Store :=
  j.entries.foldl (postLine userId j.date.year j.date.month) s

/-- `createJournalEntry(userId, entryData)`: build the line entries and the
debit/credit totals, reject with an error when they differ by more than 0.01
(the throw happens before any write, so the state is returned unchanged),
otherwise store the journal record and apply every line to the ledger. -/
def createJournalEntry (userId : Nat) (e : EntryData) (st : LedgerState) :
    Except String JournalEntry × LedgerState :=
  let entries := e.lines.map processLine
  let total_debit := (entries.map LineEntry.debit_amount).sum
  let total_credit := (entries.map LineEntry.credit_amount).sum
  if 1/100 < |total_debit - total_credit| then
    (Except.error "Journal entry not balanced", st)
  else
    let j : JournalEntry :=
      { date := e.date, description := e.description
      , total_debit := total_debit, total_credit := total_credit
      , entries := entries }
    (Except.ok j,
      { journals := st.journals ++ [j]
      , buckets := updateGeneralLedger userId j st.buckets })

/-! ## Reversal (liabilities.js, reverseJournalFromLedger) -/

/-- Fuel-driven computation of the leading decimal digit; the fuel in
`firstDigit` bounds the number of digits, so the cutoff is never reached. -/
def firstDigitAux : Nat → Nat → Nat
  | 0, n => n
  | fuel + 1, n => if n < 10 then n else firstDigitAux fuel (n / 10)

/-- Leading decimal digit of an account code, modelling
`accountCode.startsWith(d)` on the code's decimal string. -/
def firstDigit (n : Nat) : Nat := firstDigitAux n n

/-- The balance delta applied by `reverseJournalFromLedger` for one line:
`balanceChange = -(debit - credit)`, applied directly when the code string
starts with 1 or 5 and negated otherwise. -/
def reverseBalanceChangeOf (e : LineEntry) : Rat :=
  let balanceChange := -(e.debit_amount - e.credit_amount)
  if firstDigit e.account_code = 1 ∨ firstDigit e.account_code = 5 then
    balanceChange
  else
    -balanceChange

/-- The loop body of `reverseJournalFromLedger` for one line. -/
def reverseLine (userId year month : Nat) (s : Store) (e : LineEntry) : Store :=
  let k : BucketKey := (userId, e.account_code, year, month)
  let s1 := if 0 < e.debit_amount then s.incrDebits k (-e.debit_amount) else s
  let s2 := if 0 < e.credit_amount then s1.incrCredits k (-e.credit_amount) else s1
  s2.incrBalance k (reverseBalanceChangeOf e)

/-- `reverseJournalFromLedger(userId, journalEntry)`: subtract every line's
totals from its bucket and apply the reversed balance change, classifying
debit-normal accounts by the first character of the account code. -/
def reverseJournalFromLedger (userId : Nat) (j : JournalEntry) (s : Store) : Store :=
  j.entries.foldl (reverseLine userId j.date.year j.date.month) s

/-! ## Trial balance (getTrialBalance) -/

/-- One line of the trial balance. -/
structure TBEntry where
  account_code : Nat
  account_name : String
  account_type : AccountType
  debit_balance : Rat
  credit_balance : Rat
  total_debits : Rat
  total_credits : Rat
deriving DecidableEq, Repr

/-- The object returned by `getTrialBalance` (the formatted `period` string
is not modelled). -/
structure TrialBalance where
  accounts : List TBEntry
  total_debits : Rat
  total_credits : Rat
  is_balanced : Bool
deriving DecidableEq, Repr

/-- The trial-balance line built for one chart account and its bucket:
`debit_balance` is the bucket balance when it is positive and the account's
type is debit-normal (asset/expense), else 0; symmetrically for
`credit_balance`; the aggregate `total_debits`/`total_credits` are read
straight from the bucket, not recomputed. -/
def tbEntryOf (p : Nat × Account) (b : Bucket) : TBEntry :=
  { account_code := p.1
  , account_name := p.2.name
  , account_type := p.2.type
  , debit_balance :=
      if 0 < b.balance ∧ (p.2.type = asset ∨ p.2.type = expense) then
        b.balance
      else 0
  , credit_balance :=
      if 0 < b.balance ∧
          (p.2.type = liability ∨ p.2.type = equity ∨ p.2.type = revenue) then
        b.balance
      else 0
  , total_debits := b.total_debits
  , total_credits := b.total_credits }

/-- The loop body of `getTrialBalance` for one chart account: skip the
account when its bucket is absent (`if (ledgerData.balance)` fails only when
`hGetAll` returned an empty object, since every write path sets `balance`),
skip it when all three numeric fields are zero, and otherwise emit a line and
accumulate the debit/credit balance totals. -/
def tbStep (userId year month : Nat) (s : Store)
    (acc : List TBEntry × Rat × Rat) (p : Nat × Account) :
    List TBEntry × Rat × Rat :=
  match s (userId, p.1, year, month) with
  | none => acc
  | some b =>
    if b.balance ≠ 0 ∨ b.total_debits ≠ 0 ∨ b.total_credits ≠ 0 then
      let entry := tbEntryOf p b
      (acc.1 ++ [entry], acc.2.1 + entry.debit_balance, acc.2.2 + entry.credit_balance)
    else acc

/-- `getTrialBalance(userId, year, month)` with the target period supplied
explicitly (the source defaults a missing argument to the current date).
The final sort by account code is the identity because `chartList` is
already in ascending code order, so it is not modelled. -/
def getTrialBalance (userId year month : Nat) (s : Store) : TrialBalance :=
  let r := chartList.foldl (tbStep userId year month s) ([], 0, 0)
  { accounts := r.1
  , total_debits := r.2.1
  , total_credits := r.2.2
  , is_balanced := |r.2.1 - r.2.2| < 1/100 }

/-! ## Month iteration (the while loops over `setMonth`) -/

/-- Gregorian leap-year test, as implemented by JavaScript dates. -/
def isLeapYear (y : Nat) : Bool :=
  (y % 4 == 0 && y % 100 != 0) || y % 400 == 0

/-- Number of days of a month. -/
def daysInMonth (y m : Nat) : Nat :=
  if m = 2 then (if isLeapYear y then 29 else 28)
  else if m = 4 ∨ m = 6 ∨ m = 9 ∨ m = 11 then 30
  else 31

/-- `currentDate.setMonth(currentDate.getMonth() + 1)`: step to the next
month, keeping the day-of-month; JavaScript normalises a day-of-month that
does not exist in the new month by rolling the excess into the following
month (e.g. January 31 plus one month is March 2 or 3). -/
def addOneMonth (d : Date) : Date :=
  let y := if 12 < d.month + 1 then d.year + 1 else d.year
  let m := if 12 < d.month + 1 then d.month + 1 - 12 else d.month + 1
  if daysInMonth y m < d.day then
    let d2 := d.day - daysInMonth y m
    if 12 < m + 1 then ⟨y + 1, m + 1 - 12, d2⟩ else ⟨y, m + 1, d2⟩
  else ⟨y, m, d.day⟩

/-- Fuel-driven unfolding of `while (currentDate <= end) { ...; setMonth+1 }`.
Each iteration advances the month index `year * 12 + month` by at least one,
so for calendar dates (month between 1 and 12) the fuel chosen in
`monthsBetween` is an upper bound on the iteration count and the cutoff is
never reached. -/
def monthsBetweenGo (e : Date) (cur : Date) : Nat → List Date
  | 0 => []
  | fuel + 1 =>
    if dateLe cur e then cur :: monthsBetweenGo e (addOneMonth cur) fuel else []

/-- The list of loop iterations (as dates) of the month-stepping while loop
running from `s` to `e` inclusive. -/
def monthsBetween (s e : Date) : List Date :=
  monthsBetweenGo e s ((e.year * 12 + e.month + 2) - (s.year * 12 + s.month))

/-! ## Income statement (generateIncomeStatement) -/

/-- One pushed item of an income-statement section. -/
structure ISItem where
  account_code : Nat
  account_name : String
  amount : Rat
deriving DecidableEq, Repr

/-- An income-statement section: the pushed items and their running total. -/
structure ISSection where
  items : List ISItem
  total : Rat
deriving DecidableEq, Repr

/-- Push one item onto a section, accumulating the total. -/
def ISSection.push (sec : ISSection) (it : ISItem) : ISSection :=
  { items := sec.items ++ [it], total := sec.total + it.amount }

/-- The five mutable sections while the month loop runs. -/
structure ISAccum where
  revenue : ISSection
  cogs : ISSection
  operating_expenses : ISSection
  other_income : ISSection
  other_expenses : ISSection
deriving DecidableEq, Repr

/-- The empty accumulator the statement starts from. -/
def ISAccum.init : ISAccum := ⟨⟨[], 0⟩, ⟨[], 0⟩, ⟨[], 0⟩, ⟨[], 0⟩, ⟨[], 0⟩⟩

/-- The object returned by `generateIncomeStatement` (the formatted `period`
string is not modelled). -/
structure IncomeStatement where
  revenue : ISSection
  cogs : ISSection
  gross_profit : Rat
  operating_expenses : ISSection
  operating_income : Rat
  other_income : ISSection
  other_expenses : ISSection
  net_income : Rat
deriving DecidableEq, Repr

/-- The inner loop body of `generateIncomeStatement` for one chart account in
one month: revenue and expense accounts with a non-zero bucket balance push
`Math.abs(balance)` into the section selected by type and category. -/
def isAccountStep (userId : Nat) (s : Store) (d : Date)
    (acc : ISAccum) (p : Nat × Account) : ISAccum :=
  if p.2.type = revenue ∨ p.2.type = expense then
    let balance := (s.read (userId, p.1, d.year, d.month)).balance
    if balance ≠ 0 then
      let item : ISItem := ⟨p.1, p.2.name, |balance|⟩
      if p.2.type = revenue then
        if p.2.category = operating then
          { acc with revenue := acc.revenue.push item }
        else
          { acc with other_income := acc.other_income.push item }
      else
        if p.2.category = cogs then
          { acc with cogs := acc.cogs.push item }
        else if p.2.category = operating then
          { acc with operating_expenses := acc.operating_expenses.push item }
        else
          { acc with other_expenses := acc.other_expenses.push item }
    else acc
  else acc

/-- One iteration of the month loop: scan the whole chart for this month. -/
def isMonthStep (userId : Nat) (s : Store) (acc : ISAccum) (d : Date) : ISAccum :=
  chartList.foldl (isAccountStep userId s d) acc

/-- `generateIncomeStatement(userId, startDate, endDate)`. -/
def generateIncomeStatement (userId : Nat) (startDate endDate : Date)
    (s : Store) : IncomeStatement :=
  let a := (monthsBetween startDate endDate).foldl (isMonthStep userId s) ISAccum.init
  let gross_profit := a.revenue.total - a.cogs.total
  let operating_income := gross_profit - a.operating_expenses.total
  let net_income := operating_income + a.other_income.total - a.other_expenses.total
  { revenue := a.revenue
  , cogs := a.cogs
  , gross_profit := gross_profit
  , operating_expenses := a.operating_expenses
  , operating_income := operating_income
  , other_income := a.other_income
  , other_expenses := a.other_expenses
  , net_income := net_income }

/-! ## Balance sheet (generateBalanceSheet) -/

/-- One balance-sheet line. -/
structure BSItem where
  account_code : Nat
  account_name : String
  balance : Rat
deriving DecidableEq, Repr

/-- The `assets` group.  The chart's asset accounts use exactly the
categories current, fixed, and investment, so the source's dynamic creation
of further category arrays never fires. -/
structure BSAssets where
  current : List BSItem
  fixed : List BSItem
  investment : List BSItem
  total : Rat
deriving DecidableEq, Repr

/-- The `liabilities` group; chart liability accounts use exactly the
categories current and long_term. -/
structure BSLiabilities where
  current : List BSItem
  long_term : List BSItem
  total : Rat
deriving DecidableEq, Repr

/-- The `equity` group. -/
structure BSEquity where
  items : List BSItem
  total : Rat
deriving DecidableEq, Repr

/-- The object returned by `generateBalanceSheet` (the `as_of_date` string
is not modelled). -/
structure BalanceSheet where
  assets : BSAssets
  liabilities : BSLiabilities
  equity : BSEquity
  total_liabilities_equity : Rat
  is_balanced : Bool
deriving DecidableEq, Repr

/-- The `cumulativeBalance` loop: sum the bucket `balance` of the account
over the months `1 .. month` of the single year `year`. -/
def cumulativeBalance (userId : Nat) (s : Store) (year month code : Nat) : Rat :=
  ((List.range month).map fun i => (s.read (userId, code, year, i + 1)).balance).sum

/-- The loop body of `generateBalanceSheet` for one chart account: skip
non-balance-sheet types, compute the cumulative balance over months
`1 .. month` of `year`, and include the account (as `Math.abs` of the
cumulative balance) only when that magnitude exceeds 0.01. -/
def bsStep (userId : Nat) (s : Store) (year month : Nat)
    (acc : BSAssets × BSLiabilities × BSEquity) (p : Nat × Account) :
    BSAssets × BSLiabilities × BSEquity :=
  if p.2.type = asset ∨ p.2.type = liability ∨ p.2.type = equity then
    let cum := cumulativeBalance userId s year month p.1
    if 1/100 < |cum| then
      let item : BSItem := ⟨p.1, p.2.name, |cum|⟩
      if p.2.type = asset then
        let a := acc.1
        let a :=
          if p.2.category = current then
            { a with current := a.current ++ [item], total := a.total + item.balance }
          else if p.2.category = fixed then
            { a with fixed := a.fixed ++ [item], total := a.total + item.balance }
          else if p.2.category = investment then
            { a with investment := a.investment ++ [item], total := a.total + item.balance }
          else  -- unreachable on the chart: no other asset category exists
            { a with total := a.total + item.balance }
        (a, acc.2.1, acc.2.2)
      else if p.2.type = liability then
        let l := acc.2.1
        let l :=
          if p.2.category = current then
            { l with current := l.current ++ [item], total := l.total + item.balance }
          else if p.2.category = long_term then
            { l with long_term := l.long_term ++ [item], total := l.total + item.balance }
          else  -- unreachable on the chart: no other liability category exists
            { l with total := l.total + item.balance }
        (acc.1, l, acc.2.2)
      else
        (acc.1, acc.2.1,
          { items := acc.2.2.items ++ [item], total := acc.2.2.total + item.balance })
    else acc
  else acc

/-- `generateBalanceSheet(userId, asOfDate)`.  The source also reads the real
clock (`new Date()`) to pick the start of the current year for the earnings
plug; that clock reading is the explicit `today` parameter here. -/
def generateBalanceSheet (userId : Nat) (asOfDate today : Date)
    (s : Store) : BalanceSheet :=
  let year := asOfDate.year
  let month := asOfDate.month
  let r := chartList.foldl (bsStep userId s year month) (⟨[], [], [], 0⟩, ⟨[], [], 0⟩, ⟨[], 0⟩)
  let startOfYear : Date := ⟨today.year, 1, 1⟩
  let incomeStatement := generateIncomeStatement userId startOfYear asOfDate s
  let q :=
    if 1/100 < |incomeStatement.net_income| then
      { items := r.2.2.items ++ [⟨3200, "Current Year Earnings", |incomeStatement.net_income|⟩]
      , total := r.2.2.total + |incomeStatement.net_income| }
    else r.2.2
  let tle := r.2.1.total + q.total
  { assets := r.1
  , liabilities := r.2.1
  , equity := q
  , total_liabilities_equity := tle
  , is_balanced := |r.1.total - tle| < 1/100 }

/-! ## Account balance and cash-flow statement -/

/-- `getAccountBalance(userId, accountCode, asOfDate)`: the `balance` field
of the single bucket of the month containing `asOfDate`, zero when the
bucket is absent. -/
def getAccountBalance (userId accountCode : Nat) (asOfDate : Date) (s : Store) : Rat :=
  (s.read (userId, accountCode, asOfDate.year, asOfDate.month)).balance

/-- One pushed cash-flow line. -/
structure CFItem where
  description : String
  amount : Rat
deriving DecidableEq, Repr

/-- A cash-flow section: pushed items plus running total. -/
structure CFSection where
  items : List CFItem
  total : Rat
deriving DecidableEq, Repr

/-- `generateCashflowStatement(userId, startDate, endDate)` (the formatted
`period` string is not modelled). -/
structure CashflowStatement where
  operating_activities : CFSection
  investing_activities : CFSection
  financing_activities : CFSection
  net_change_in_cash : Rat
  beginning_cash : Rat
  ending_cash : Rat
deriving DecidableEq, Repr

/-- The hardcoded working-capital account list of the source. -/
def workingCapitalAccounts : List Nat := [1200, 1300, 1400, 2000, 2100]

/-- The hardcoded investing account list of the source. -/
def investingAccounts : List Nat := [1500, 1700, 1800]

/-- The hardcoded financing account list of the source. -/
def financingAccounts : List Nat := [2500, 3000]

/-- `generateCashflowStatement`. -/
def generateCashflowStatement (userId : Nat) (startDate endDate : Date)
    (s : Store) : CashflowStatement :=
  let incomeStatement := generateIncomeStatement userId startDate endDate s
  let op : CFSection :=
    ⟨[⟨"Net Income", incomeStatement.net_income⟩], incomeStatement.net_income⟩
  let op := (monthsBetween startDate endDate).foldl (fun acc d =>
      let depreciation := (s.read (userId, 5600, d.year, d.month)).balance
      if 0 < depreciation then
        ⟨acc.items ++ [⟨"Depreciation Expense", depreciation⟩], acc.total + depreciation⟩
      else acc) op
  let op := workingCapitalAccounts.foldl (fun acc code =>
      match chartOfAccounts code with
      | none => acc
      | some info =>
        let beginningBalance := getAccountBalance userId code startDate s
        let endingBalance := getAccountBalance userId code endDate s
        let change := endingBalance - beginningBalance
        if 1/100 < |change| then
          let cashEffect := if info.type = asset then -change else change
          ⟨acc.items ++ [⟨"Change in " ++ info.name, cashEffect⟩], acc.total + cashEffect⟩
        else acc) op
  let inv := investingAccounts.foldl (fun acc code =>
      match chartOfAccounts code with
      | none => acc
      | some info =>
        let change := getAccountBalance userId code endDate s -
          getAccountBalance userId code startDate s
        if 1/100 < |change| then
          ⟨acc.items ++ [⟨"Purchase of " ++ info.name, -change⟩], acc.total - change⟩
        else acc) (⟨[], 0⟩ : CFSection)
  let fin := financingAccounts.foldl (fun acc code =>
      match chartOfAccounts code with
      | none => acc
      | some info =>
        let change := getAccountBalance userId code endDate s -
          getAccountBalance userId code startDate s
        if 1/100 < |change| then
          ⟨acc.items ++ [⟨"Change in " ++ info.name, change⟩], acc.total + change⟩
        else acc) (⟨[], 0⟩ : CFSection)
  let netChange := op.total + inv.total + fin.total
  let beginningCash := getAccountBalance userId 1000 startDate s +
    getAccountBalance userId 1100 startDate s
  { operating_activities := op
  , investing_activities := inv
  , financing_activities := fin
  , net_change_in_cash := netChange
  , beginning_cash := beginningCash
  , ending_cash := beginningCash + netChange }

/-! ## Store and posting lemmas -/

/-- Componentwise sum of bucket field deltas. -/
def Bucket.add (x y : Bucket) : Bucket :=
  ⟨x.total_debits + y.total_debits, x.total_credits + y.total_credits,
    x.balance + y.balance⟩

/-- Componentwise negation of bucket field deltas. -/
def Bucket.neg (x : Bucket) : Bucket :=
  ⟨-x.total_debits, -x.total_credits, -x.balance⟩

theorem Bucket.add_empty (x : Bucket) : x.add Bucket.empty = x := by
  cases x; simp [Bucket.add, Bucket.empty]

theorem Bucket.add_assoc (x y z : Bucket) : (x.add y).add z = x.add (y.add z) := by
  cases x; cases y; cases z
  simp only [Bucket.add, Bucket.mk.injEq]
  exact ⟨by ring, by ring, by ring⟩

theorem Bucket.add_neg_add (b x : Bucket) : (b.add x.neg).add x = b := by
  cases b; cases x
  simp only [Bucket.add, Bucket.neg, Bucket.mk.injEq]
  exact ⟨by ring, by ring, by ring⟩

theorem Store.read_set (s : Store) (k : BucketKey) (b : Bucket) (k2 : BucketKey) :
    (s.set k b).read k2 = if k2 = k then b else s.read k2 := by
  by_cases h : k2 = k <;> simp [Store.set, Store.read, h]

/-- The field deltas applied to the line's bucket by the posting loop body. -/
def postDelta (e : LineEntry) : Bucket :=
  ⟨if 0 < e.debit_amount then e.debit_amount else 0,
    if 0 < e.credit_amount then e.credit_amount else 0,
    balanceChangeOf e⟩

/-- The field deltas applied to the line's bucket by the reversal loop body. -/
def revDelta (e : LineEntry) : Bucket :=
  ⟨if 0 < e.debit_amount then -e.debit_amount else 0,
    if 0 < e.credit_amount then -e.credit_amount else 0,
    reverseBalanceChangeOf e⟩

theorem read_postLine (u y m : Nat) (s : Store) (e : LineEntry) (k : BucketKey) :
    (postLine u y m s e).read k =
      if k = (u, e.account_code, y, m) then (s.read k).add (postDelta e)
      else s.read k := by
  by_cases hd : 0 < e.debit_amount <;> by_cases hc : 0 < e.credit_amount <;>
    by_cases hk : k = (u, e.account_code, y, m) <;>
      simp [postLine, Store.incrDebits, Store.incrCredits, Store.incrBalance,
        Store.read_set, hd, hc, hk, postDelta, Bucket.add]

theorem read_reverseLine (u y m : Nat) (s : Store) (e : LineEntry) (k : BucketKey) :
    (reverseLine u y m s e).read k =
      if k = (u, e.account_code, y, m) then (s.read k).add (revDelta e)
      else s.read k := by
  by_cases hd : 0 < e.debit_amount <;> by_cases hc : 0 < e.credit_amount <;>
    by_cases hk : k = (u, e.account_code, y, m) <;>
      simp [reverseLine, Store.incrDebits, Store.incrCredits, Store.incrBalance,
        Store.read_set, hd, hc, hk, revDelta, Bucket.add]

/-- Sum of the posting deltas of the lines whose bucket key is `k`. -/
def sumPostDeltas (u y m : Nat) (k : BucketKey) : List LineEntry → Bucket
  | [] => Bucket.empty
  | e :: tl =>
    if ((u, e.account_code, y, m) : BucketKey) = k then
      (postDelta e).add (sumPostDeltas u y m k tl)
    else sumPostDeltas u y m k tl

/-- Sum of the reversal deltas of the lines whose bucket key is `k`. -/
def sumRevDeltas (u y m : Nat) (k : BucketKey) : List LineEntry → Bucket
  | [] => Bucket.empty
  | e :: tl =>
    if ((u, e.account_code, y, m) : BucketKey) = k then
      (revDelta e).add (sumRevDeltas u y m k tl)
    else sumRevDeltas u y m k tl

theorem read_foldl_postLine (u y m : Nat) (l : List LineEntry) (s : Store)
    (k : BucketKey) :
    (l.foldl (postLine u y m) s).read k = (s.read k).add (sumPostDeltas u y m k l) := by
  induction l generalizing s with
  | nil => simp [sumPostDeltas, Bucket.add_empty]
  | cons e tl ih =>
    simp only [List.foldl_cons, ih, read_postLine, sumPostDeltas]
    by_cases hk : ((u, e.account_code, y, m) : BucketKey) = k
    · rw [if_pos hk, if_pos hk.symm, Bucket.add_assoc]
    · rw [if_neg hk, if_neg fun h => hk h.symm]

theorem read_foldl_reverseLine (u y m : Nat) (l : List LineEntry) (s : Store)
    (k : BucketKey) :
    (l.foldl (reverseLine u y m) s).read k = (s.read k).add (sumRevDeltas u y m k l) := by
  induction l generalizing s with
  | nil => simp [sumRevDeltas, Bucket.add_empty]
  | cons e tl ih =>
    simp only [List.foldl_cons, ih, read_reverseLine, sumRevDeltas]
    by_cases hk : ((u, e.account_code, y, m) : BucketKey) = k
    · rw [if_pos hk, if_pos hk.symm, Bucket.add_assoc]
    · rw [if_neg hk, if_neg fun h => hk h.symm]

/-- On every account of the chart, the string-keyed debit-normal test of the
reversal engine (code starts with 1 or 5) coincides with the type-based test
of the posting engine. -/
theorem chart_firstDigit_agrees :
    ∀ p ∈ chartList,
      ((firstDigit p.1 = 1 ∨ firstDigit p.1 = 5) ↔
        (p.2.type = asset ∨ p.2.type = expense)) := by
  decide

theorem chartOfAccounts_mem {c : Nat} {a : Account}
    (h : chartOfAccounts c = some a) : (c, a) ∈ chartList := by
  unfold chartOfAccounts at h
  cases hf : chartList.find? fun p => p.1 == c with
  | none => rw [hf] at h; simp at h
  | some p =>
    rw [hf] at h
    have hp := List.find?_some hf
    have hmem := List.mem_of_find?_eq_some hf
    obtain ⟨p1, p2⟩ := p
    simp only [beq_iff_eq] at hp
    have h2 : p2 = a := by simpa using h
    subst hp; subst h2
    exact hmem

/-- For a line whose account code resolves in the chart, the reversal deltas
are exactly the negated posting deltas. -/
theorem revDelta_eq_neg_postDelta (e : LineEntry) (a : Account)
    (h : chartOfAccounts e.account_code = some a) :
    revDelta e = (postDelta e).neg := by
  have hagree := chart_firstDigit_agrees _ (chartOfAccounts_mem h)
  have h3 : reverseBalanceChangeOf e = -(balanceChangeOf e) := by
    simp only [reverseBalanceChangeOf, balanceChangeOf, h]
    by_cases ht : a.type = asset ∨ a.type = expense
    · rw [if_pos (hagree.mpr ht), if_pos ht]
    · rw [if_neg fun hd => ht (hagree.mp hd), if_neg ht]; ring
  simp only [revDelta, postDelta, Bucket.neg, Bucket.mk.injEq, h3]
  refine ⟨?_, ?_, ?_⟩ <;> first
    | trivial
    | (split <;> simp)

theorem Bucket.neg_add (x y : Bucket) : (x.add y).neg = x.neg.add y.neg := by
  cases x; cases y
  simp only [Bucket.add, Bucket.neg, Bucket.mk.injEq]
  exact ⟨by ring, by ring, by ring⟩

theorem sumRevDeltas_eq_neg (u y m : Nat) (k : BucketKey) (l : List LineEntry)
    (hres : ∀ e ∈ l, (chartOfAccounts e.account_code).isSome) :
    sumRevDeltas u y m k l = (sumPostDeltas u y m k l).neg := by
  induction l with
  | nil => simp [sumRevDeltas, sumPostDeltas, Bucket.neg, Bucket.empty]
  | cons e tl ih =>
    have he : (chartOfAccounts e.account_code).isSome := hres e (by simp)
    obtain ⟨a, ha⟩ := Option.isSome_iff_exists.mp he
    have htl : ∀ e2 ∈ tl, (chartOfAccounts e2.account_code).isSome := by
      intro e2 h2; exact hres e2 (List.mem_cons_of_mem _ h2)
    simp only [sumRevDeltas, sumPostDeltas]
    by_cases hk : ((u, e.account_code, y, m) : BucketKey) = k
    · rw [if_pos hk, if_pos hk, revDelta_eq_neg_postDelta e a ha, ih htl,
        Bucket.neg_add]
    · rw [if_neg hk, if_neg hk, ih htl]

/-! ## Spec-side definitions (for refinement comparisons) -/

/-- Modelled from the spec (sections 3 and 4.2): the effective normal
balance of an account, with `isContra` inverting the normal side of the
account's type. -/
def specDebitNormal (a : Account) : Bool :=
  let base := decide (a.type = asset ∨ a.type = expense)
  if a.isContra then !base else base

/-- Modelled from the spec (section 4.2): the signed balance delta of one
line, following the effective normal balance. -/
def specBalanceDelta (a : Account) (debitAmount creditAmount : Rat) : Rat :=
  if specDebitNormal a then debitAmount - creditAmount
  else creditAmount - debitAmount

/-! ## Claim C1 -/

theorem processed_debit_map (lines : List EntryLine) :
    (lines.map processLine).map LineEntry.debit_amount = lines.map EntryLine.debit := by
  induction lines with
  | nil => rfl
  | cons l tl ih => simp [processLine, ih]

theorem processed_credit_map (lines : List EntryLine) :
    (lines.map processLine).map LineEntry.credit_amount = lines.map EntryLine.credit := by
  induction lines with
  | nil => rfl
  | cons l tl ih => simp [processLine, ih]

/-- Claim C1: a proposed entry whose debit and credit sums differ by more
than 0.01 is rejected with a balance error and neither a journal record nor
any bucket mutation happens; an entry that posts successfully has its
debit and credit totals equal within 0.01. -/
theorem C1_balance_validation (userId : Nat) (e : EntryData) (st : LedgerState) :
    (1/100 < |(e.lines.map EntryLine.debit).sum - (e.lines.map EntryLine.credit).sum| →
      (createJournalEntry userId e st).1 = Except.error "Journal entry not balanced" ∧
        (createJournalEntry userId e st).2 = st) ∧
    (∀ j st2, createJournalEntry userId e st = (Except.ok j, st2) →
      |j.total_debit - j.total_credit| ≤ 1/100) := by
  have hsum : ((e.lines.map processLine).map LineEntry.debit_amount).sum -
      ((e.lines.map processLine).map LineEntry.credit_amount).sum =
      (e.lines.map EntryLine.debit).sum - (e.lines.map EntryLine.credit).sum := by
    rw [processed_debit_map, processed_credit_map]
  constructor
  · intro hgt
    simp only [createJournalEntry]
    rw [hsum, if_pos hgt]
    exact ⟨rfl, rfl⟩
  · intro j st2 hok
    simp only [createJournalEntry] at hok
    rw [hsum] at hok
    by_cases hgt : 1/100 <
        |(e.lines.map EntryLine.debit).sum - (e.lines.map EntryLine.credit).sum|
    · rw [if_pos hgt] at hok
      simp at hok
    · rw [if_neg hgt] at hok
      rw [Prod.mk.injEq] at hok
      have h3 := Except.ok.inj hok.1
      rw [← h3]
      dsimp only
      rw [processed_debit_map, processed_credit_map]
      exact le_of_not_lt hgt

/-- The concrete imbalanced proposal used to exercise C1. -/
def c1_bad_entry : EntryData :=
  ⟨⟨2024, 3, 10⟩, "unbalanced", [⟨1000, 100, 0⟩, ⟨4000, 0, 50⟩]⟩

/-- Witness for C1: on a concrete entry with debits 100 and credits 50 the
poster returns the balance error and leaves the state untouched. -/
theorem C1_balance_validation_witness :
    (createJournalEntry 7 c1_bad_entry ⟨[], emptyStore⟩).1 =
        Except.error "Journal entry not balanced" ∧
      (createJournalEntry 7 c1_bad_entry ⟨[], emptyStore⟩).2 = ⟨[], emptyStore⟩ :=
  (C1_balance_validation 7 c1_bad_entry ⟨[], emptyStore⟩).1 (by decide)

/-! ## Claim C2 -/

/-- A balanced journal entry debiting the contra-asset account 1600. -/
def c2_entry : JournalEntry :=
  { date := ⟨2024, 3, 10⟩
  , description := "depreciation adjustment"
  , total_debit := 100, total_credit := 100
  , entries := [⟨1600, "Accumulated Depreciation - Equipment", 100, 0⟩,
                ⟨1000, "Cash", 0, 100⟩] }

/-- Claim C2 counterexample: account 1600 is an asset with `isContra`, so
under the claim's effective-normal-balance rule a 100 debit should move its
bucket balance by credit − debit = −100; the code moves it by +100, because
`updateGeneralLedger` looks only at the type and never reads `isContra`. -/
theorem C2_counterexample :
    ((updateGeneralLedger 7 c2_entry emptyStore).read (7, 1600, 2024, 3)).balance = 100 ∧
      chartOfAccounts 1600 =
        some ⟨"Accumulated Depreciation - Equipment", asset, fixed, true⟩ ∧
      specBalanceDelta ⟨"Accumulated Depreciation - Equipment", asset, fixed, true⟩ 100 0 =
        -100 ∧
      (100 : Rat) ≠ -100 := by
  decide

/-- Claim C2 (amended): the bucket's signed balance delta for a line follows
the account's type alone — debit − credit for asset and expense accounts,
credit − debit otherwise — with `isContra` ignored, so contra accounts such
as 1600 do not invert the sign of their type. -/
theorem C2_typed_delta (u y m : Nat) (s : Store) (e : LineEntry) (a : Account)
    (h : chartOfAccounts e.account_code = some a) :
    ((postLine u y m s e).read (u, e.account_code, y, m)).balance =
      (s.read (u, e.account_code, y, m)).balance +
        (if a.type = asset ∨ a.type = expense then
          e.debit_amount - e.credit_amount
        else e.credit_amount - e.debit_amount) := by
  rw [read_postLine, if_pos rfl]
  simp [Bucket.add, postDelta, balanceChangeOf, h]

/-- Witness for the amended C2 at account 1600 (contra asset): a 100 debit
adds +100 to the balance, the delta of a plain debit-normal account. -/
theorem C2_typed_delta_witness :
    ((postLine 7 2024 3 emptyStore
        ⟨1600, "Accumulated Depreciation - Equipment", 100, 0⟩).read
          (7, 1600, 2024, 3)).balance =
      ((emptyStore : Store).read (7, 1600, 2024, 3)).balance + 100 := by
  have h := C2_typed_delta 7 2024 3 emptyStore
    ⟨1600, "Accumulated Depreciation - Equipment", 100, 0⟩
    ⟨"Accumulated Depreciation - Equipment", asset, fixed, true⟩ (by decide)
  simpa using h

/-! ## Claim C3 -/

/-- A balanced, postable entry with the unresolvable account code 1999. -/
def c3_entry : JournalEntry :=
  { date := ⟨2024, 3, 10⟩
  , description := "unknown code"
  , total_debit := 100, total_credit := 100
  , entries := [⟨1999, "Unknown Account", 100, 0⟩,
                ⟨2000, "Accounts Payable", 0, 100⟩] }

/-- The store after posting `c3_entry` on an empty ledger. -/
def c3_posted : Store := updateGeneralLedger 7 c3_entry emptyStore

/-- The store after then reversing and re-posting `c3_entry`. -/
def c3_rtrip : Store :=
  updateGeneralLedger 7 c3_entry (reverseJournalFromLedger 7 c3_entry c3_posted)

/-- Claim C3 counterexample: the entry posts successfully (it is balanced),
but its line on code 1999 is debit-normal for the reversal engine (the code
string starts with 1) and credit-normal for the posting engine (the code
resolves to no chart type), so reverse-then-post moves the bucket balance
from −100 to −300 — not within 0.01 of its pre-reversal value. -/
theorem C3_counterexample :
    (createJournalEntry 7 ⟨⟨2024, 3, 10⟩, "unknown code",
        [⟨1999, 100, 0⟩, ⟨2000, 0, 100⟩]⟩ ⟨[], emptyStore⟩).1 = Except.ok c3_entry ∧
      (c3_posted.read (7, 1999, 2024, 3)).balance = -100 ∧
      (c3_rtrip.read (7, 1999, 2024, 3)).balance = -300 ∧
      ¬(|(-300 : Rat) - (-100)| ≤ 1/100) := by
  decide

/-- Claim C3 (amended): for a posted entry all of whose line account codes
resolve in the chart of accounts, reversing and then re-posting restores
every bucket's total_debits, total_credits and balance exactly. -/
theorem C3_reverse_post_roundtrip (u : Nat) (j : JournalEntry) (s : Store)
    (hres : ∀ e ∈ j.entries, (chartOfAccounts e.account_code).isSome)
    (k : BucketKey) :
    (updateGeneralLedger u j (reverseJournalFromLedger u j s)).read k = s.read k := by
  rw [updateGeneralLedger, reverseJournalFromLedger, read_foldl_postLine,
    read_foldl_reverseLine, sumRevDeltas_eq_neg _ _ _ _ _ hres, Bucket.add_neg_add]

/-- The spec's own example posting (rent 800 against bank). -/
def c3_good : JournalEntry :=
  { date := ⟨2024, 3, 10⟩
  , description := "rent"
  , total_debit := 800, total_credit := 800
  , entries := [⟨5100, "Rent Expense", 800, 0⟩,
                ⟨1100, "Bank - Current Account", 0, 800⟩] }

/-- The store after posting `c3_good` on an empty ledger. -/
def c3_good_store : Store := updateGeneralLedger 7 c3_good emptyStore

/-- Witness for the amended C3 on the rent example: the bank bucket is
restored exactly by reverse-then-post. -/
theorem C3_reverse_post_roundtrip_witness :
    (updateGeneralLedger 7 c3_good
        (reverseJournalFromLedger 7 c3_good c3_good_store)).read (7, 1100, 2024, 3) =
      c3_good_store.read (7, 1100, 2024, 3) :=
  C3_reverse_post_roundtrip 7 c3_good c3_good_store (by decide) (7, 1100, 2024, 3)

/-! ## Claim C6 -/

/-- A balanced proposal containing the unresolvable account code 9999. -/
def c6_entry : EntryData :=
  ⟨⟨2024, 3, 10⟩, "mystery posting", [⟨9999, 100, 0⟩, ⟨2000, 0, 100⟩]⟩

/-- Claim C6 counterexample: posting an entry with the unknown account code
9999 does not fail — it succeeds, mutates the 9999 bucket, and stores the
line under the fallback name Unknown Account with an assumed credit-normal
balance. -/
theorem C6_counterexample :
    (createJournalEntry 7 c6_entry ⟨[], emptyStore⟩).1.isOk = true ∧
      (createJournalEntry 7 c6_entry ⟨[], emptyStore⟩).2.buckets.read (7, 9999, 2024, 3) =
        ⟨100, 0, -100⟩ ∧
      ((emptyStore : Store).read (7, 9999, 2024, 3)) = ⟨0, 0, 0⟩ ∧
      ((createJournalEntry 7 c6_entry ⟨[], emptyStore⟩).1.map fun j =>
          j.entries.map LineEntry.account_name) =
        Except.ok ["Unknown Account", "Accounts Payable"] := by
  decide

/-- Claim C6 (amended): an unresolvable account code is not rejected — the
line is stored under the fallback name Unknown Account, its bucket balance
is updated with the assumed credit-normal delta credit − debit, and the
poster accepts the entry whenever the debit/credit sums balance, with no
resolution check at all. -/
theorem C6_silent_fallback (l : EntryLine) (u y m : Nat) (s : Store)
    (e : EntryData) (st : LedgerState)
    (hnone : chartOfAccounts l.account_code = none)
    (hbal : ¬(1/100 < |(e.lines.map EntryLine.debit).sum - (e.lines.map EntryLine.credit).sum|)) :
    processLine l = ⟨l.account_code, "Unknown Account", l.debit, l.credit⟩ ∧
      ((postLine u y m s (processLine l)).read (u, l.account_code, y, m)).balance =
        (s.read (u, l.account_code, y, m)).balance + (l.credit - l.debit) ∧
      (createJournalEntry u e st).1.isOk = true := by
  have hpl : processLine l = ⟨l.account_code, "Unknown Account", l.debit, l.credit⟩ := by
    simp [processLine, hnone]
  refine ⟨hpl, ?_, ?_⟩
  · rw [hpl, read_postLine]
    simp [Bucket.add, postDelta, balanceChangeOf, hnone]
  · simp only [createJournalEntry]
    rw [processed_debit_map, processed_credit_map, if_neg hbal]
    rfl

/-- Witness for the amended C6 on the concrete code 9999. -/
theorem C6_silent_fallback_witness :
    processLine ⟨9999, 100, 0⟩ = ⟨9999, "Unknown Account", 100, 0⟩ ∧
      ((postLine 7 2024 3 emptyStore (processLine ⟨9999, 100, 0⟩)).read
          (7, 9999, 2024, 3)).balance =
        ((emptyStore : Store).read (7, 9999, 2024, 3)).balance + (0 - 100) ∧
      (createJournalEntry 7 c6_entry ⟨[], emptyStore⟩).1.isOk = true :=
  C6_silent_fallback ⟨9999, 100, 0⟩ 7 2024 3 emptyStore c6_entry ⟨[], emptyStore⟩
    (by decide) (by decide)

/-! ## Claim C8 -/

theorem foldl_isAccountStep_zero (u : Nat) (s : Store) (d : Date)
    (l : List (Nat × Account)) (acc : ISAccum)
    (h : ∀ p ∈ l, (s.read (u, p.1, d.year, d.month)).balance = 0) :
    l.foldl (isAccountStep u s d) acc = acc := by
  induction l generalizing acc with
  | nil => rfl
  | cons p tl ih =>
    have hstep : isAccountStep u s d acc p = acc := by
      simp [isAccountStep, h p (by simp)]
    rw [List.foldl_cons, hstep]
    exact ih acc fun p2 h2 => h p2 (List.mem_cons_of_mem _ h2)

theorem foldl_isMonthStep_zero (u : Nat) (s : Store) (ms : List Date) (acc : ISAccum)
    (h : ∀ d ∈ ms, ∀ p ∈ chartList, (s.read (u, p.1, d.year, d.month)).balance = 0) :
    ms.foldl (isMonthStep u s) acc = acc := by
  induction ms generalizing acc with
  | nil => rfl
  | cons d tl ih =>
    rw [List.foldl_cons]
    rw [show isMonthStep u s acc d = acc from
      foldl_isAccountStep_zero u s d chartList acc (h d (by simp))]
    exact ih acc fun d2 h2 p hp => h d2 (List.mem_cons_of_mem _ h2) p hp

/-- Claim C8: over a date range in which every scanned revenue/expense
bucket balance reads zero (in particular a single-day range with no
postings), the income statement generator returns all-zero totals instead
of failing. -/
theorem C8_empty_range_zero (u : Nat) (d1 d2 : Date) (s : Store)
    (h : ∀ d ∈ monthsBetween d1 d2, ∀ p ∈ chartList,
      (s.read (u, p.1, d.year, d.month)).balance = 0) :
    (generateIncomeStatement u d1 d2 s).revenue.total = 0 ∧
      (generateIncomeStatement u d1 d2 s).cogs.total = 0 ∧
      (generateIncomeStatement u d1 d2 s).gross_profit = 0 ∧
      (generateIncomeStatement u d1 d2 s).operating_expenses.total = 0 ∧
      (generateIncomeStatement u d1 d2 s).operating_income = 0 ∧
      (generateIncomeStatement u d1 d2 s).other_income.total = 0 ∧
      (generateIncomeStatement u d1 d2 s).other_expenses.total = 0 ∧
      (generateIncomeStatement u d1 d2 s).net_income = 0 := by
  have hfold : (monthsBetween d1 d2).foldl (isMonthStep u s) ISAccum.init =
      ISAccum.init := foldl_isMonthStep_zero u s _ _ h
  simp only [generateIncomeStatement]
  rw [hfold]
  simp [ISAccum.init]

/-- Witness for C8: a single-day range on an empty ledger yields a zero
net income (and zero revenue total). -/
theorem C8_empty_range_zero_witness :
    (generateIncomeStatement 7 ⟨2024, 5, 5⟩ ⟨2024, 5, 5⟩ emptyStore).revenue.total = 0 ∧
      (generateIncomeStatement 7 ⟨2024, 5, 5⟩ ⟨2024, 5, 5⟩ emptyStore).cogs.total = 0 ∧
      (generateIncomeStatement 7 ⟨2024, 5, 5⟩ ⟨2024, 5, 5⟩ emptyStore).gross_profit = 0 ∧
      (generateIncomeStatement 7 ⟨2024, 5, 5⟩ ⟨2024, 5, 5⟩ emptyStore).operating_expenses.total = 0 ∧
      (generateIncomeStatement 7 ⟨2024, 5, 5⟩ ⟨2024, 5, 5⟩ emptyStore).operating_income = 0 ∧
      (generateIncomeStatement 7 ⟨2024, 5, 5⟩ ⟨2024, 5, 5⟩ emptyStore).other_income.total = 0 ∧
      (generateIncomeStatement 7 ⟨2024, 5, 5⟩ ⟨2024, 5, 5⟩ emptyStore).other_expenses.total = 0 ∧
      (generateIncomeStatement 7 ⟨2024, 5, 5⟩ ⟨2024, 5, 5⟩ emptyStore).net_income = 0 :=
  C8_empty_range_zero 7 ⟨2024, 5, 5⟩ ⟨2024, 5, 5⟩ emptyStore (by decide)

/-! ## Claim C9 -/

/-- Claim C9: `getAccountBalance` reads only the `balance` field of the
single bucket of the month containing the date (0 when absent, and
insensitive to every other bucket), and the cash-flow statement's beginning
cash is the sum of these single-month balances for accounts 1000 and 1100
at the start date. -/
theorem C9_single_month_balance :
    (∀ (u c : Nat) (d : Date) (s : Store),
        s (u, c, d.year, d.month) = none → getAccountBalance u c d s = 0) ∧
      (∀ (u c : Nat) (d : Date) (s : Store) (b : Bucket),
        s (u, c, d.year, d.month) = some b → getAccountBalance u c d s = b.balance) ∧
      (∀ (u c : Nat) (d : Date) (s s2 : Store),
        s (u, c, d.year, d.month) = s2 (u, c, d.year, d.month) →
          getAccountBalance u c d s = getAccountBalance u c d s2) ∧
      (∀ (u : Nat) (d1 d2 : Date) (s : Store),
        (generateCashflowStatement u d1 d2 s).beginning_cash =
          getAccountBalance u 1000 d1 s + getAccountBalance u 1100 d1 s) := by
  refine ⟨?_, ?_, ?_, ?_⟩
  · intro u c d s h
    simp [getAccountBalance, Store.read, h, Bucket.empty]
  · intro u c d s b h
    simp [getAccountBalance, Store.read, h]
  · intro u c d s s2 h
    simp [getAccountBalance, Store.read, h]
  · intro u d1 d2 s
    rfl

/-- Witness for C9: concrete reads on an empty ledger and a concrete
cash-flow statement agree as the theorem states. -/
theorem C9_single_month_balance_witness :
    getAccountBalance 7 1000 ⟨2024, 1, 15⟩ emptyStore = 0 ∧
      (generateCashflowStatement 7 ⟨2024, 1, 15⟩ ⟨2024, 2, 15⟩ emptyStore).beginning_cash =
        getAccountBalance 7 1000 ⟨2024, 1, 15⟩ emptyStore +
          getAccountBalance 7 1100 ⟨2024, 1, 15⟩ emptyStore :=
  ⟨C9_single_month_balance.1 7 1000 ⟨2024, 1, 15⟩ emptyStore rfl,
    C9_single_month_balance.2.2.2 7 ⟨2024, 1, 15⟩ ⟨2024, 2, 15⟩ emptyStore⟩

/-! ## Balance-sheet characterization -/

/-- Closed form of one balance-sheet category list: the chart accounts of
the given type and category whose cumulative magnitude exceeds 0.01, as
items carrying that magnitude. -/
def bsCatItems (u : Nat) (s : Store) (year month : Nat) (t : AccountType)
    (cat : AccountCategory) (l : List (Nat × Account)) : List BSItem :=
  l.filterMap fun p =>
    if p.2.type = t ∧ p.2.category = cat ∧
        1/100 < |cumulativeBalance u s year month p.1| then
      some ⟨p.1, p.2.name, |cumulativeBalance u s year month p.1|⟩
    else none

/-- Closed form of the equity item list (no category split). -/
def bsTypeItems (u : Nat) (s : Store) (year month : Nat) (t : AccountType)
    (l : List (Nat × Account)) : List BSItem :=
  l.filterMap fun p =>
    if p.2.type = t ∧ 1/100 < |cumulativeBalance u s year month p.1| then
      some ⟨p.1, p.2.name, |cumulativeBalance u s year month p.1|⟩
    else none

/-- Closed form of one balance-sheet group total. -/
def bsTypeTotal (u : Nat) (s : Store) (year month : Nat) (t : AccountType)
    (l : List (Nat × Account)) : Rat :=
  (l.map fun p =>
    if p.2.type = t ∧ 1/100 < |cumulativeBalance u s year month p.1| then
      |cumulativeBalance u s year month p.1|
    else 0).sum

theorem bsCatItems_append (u : Nat) (s : Store) (year month : Nat)
    (t : AccountType) (cat : AccountCategory) (l1 l2 : List (Nat × Account)) :
    bsCatItems u s year month t cat (l1 ++ l2) =
      bsCatItems u s year month t cat l1 ++ bsCatItems u s year month t cat l2 := by
  simp [bsCatItems, List.filterMap_append]

theorem bsTypeItems_append (u : Nat) (s : Store) (year month : Nat)
    (t : AccountType) (l1 l2 : List (Nat × Account)) :
    bsTypeItems u s year month t (l1 ++ l2) =
      bsTypeItems u s year month t l1 ++ bsTypeItems u s year month t l2 := by
  simp [bsTypeItems, List.filterMap_append]

theorem bsTypeTotal_append (u : Nat) (s : Store) (year month : Nat)
    (t : AccountType) (l1 l2 : List (Nat × Account)) :
    bsTypeTotal u s year month t (l1 ++ l2) =
      bsTypeTotal u s year month t l1 + bsTypeTotal u s year month t l2 := by
  simp [bsTypeTotal, List.sum_append]

/-- Closed form of one balance-sheet loop iteration. -/
theorem bsStep_eq (u : Nat) (s : Store) (year month : Nat)
    (acc : BSAssets × BSLiabilities × BSEquity) (p : Nat × Account) :
    bsStep u s year month acc p =
      (⟨acc.1.current ++ bsCatItems u s year month asset current [p],
        acc.1.fixed ++ bsCatItems u s year month asset fixed [p],
        acc.1.investment ++ bsCatItems u s year month asset investment [p],
        acc.1.total + bsTypeTotal u s year month asset [p]⟩,
       ⟨acc.2.1.current ++ bsCatItems u s year month liability current [p],
        acc.2.1.long_term ++ bsCatItems u s year month liability long_term [p],
        acc.2.1.total + bsTypeTotal u s year month liability [p]⟩,
       ⟨acc.2.2.items ++ bsTypeItems u s year month equity [p],
        acc.2.2.total + bsTypeTotal u s year month equity [p]⟩) := by
  obtain ⟨c, nm, ty, catg, ic⟩ := p
  by_cases hth : 1/100 < |cumulativeBalance u s year month c| <;>
    cases ty <;> cases catg <;>
      simp [bsStep, bsCatItems, bsTypeItems, bsTypeTotal, hth, -one_div]

theorem bsFold_eq (u : Nat) (s : Store) (year month : Nat)
    (l : List (Nat × Account)) (acc : BSAssets × BSLiabilities × BSEquity) :
    l.foldl (bsStep u s year month) acc =
      (⟨acc.1.current ++ bsCatItems u s year month asset current l,
        acc.1.fixed ++ bsCatItems u s year month asset fixed l,
        acc.1.investment ++ bsCatItems u s year month asset investment l,
        acc.1.total + bsTypeTotal u s year month asset l⟩,
       ⟨acc.2.1.current ++ bsCatItems u s year month liability current l,
        acc.2.1.long_term ++ bsCatItems u s year month liability long_term l,
        acc.2.1.total + bsTypeTotal u s year month liability l⟩,
       ⟨acc.2.2.items ++ bsTypeItems u s year month equity l,
        acc.2.2.total + bsTypeTotal u s year month equity l⟩) := by
  induction l generalizing acc with
  | nil => simp [bsCatItems, bsTypeItems, bsTypeTotal]
  | cons p tl ih =>
    rw [List.foldl_cons, ih, bsStep_eq, show p :: tl = [p] ++ tl from rfl]
    simp only [bsCatItems_append, bsTypeItems_append, bsTypeTotal_append]
    simp [List.append_assoc, add_assoc]

theorem generateBalanceSheet_assets (u : Nat) (asOf today : Date) (s : Store) :
    (generateBalanceSheet u asOf today s).assets =
      ⟨bsCatItems u s asOf.year asOf.month asset current chartList,
       bsCatItems u s asOf.year asOf.month asset fixed chartList,
       bsCatItems u s asOf.year asOf.month asset investment chartList,
       bsTypeTotal u s asOf.year asOf.month asset chartList⟩ := by
  simp only [generateBalanceSheet]
  rw [bsFold_eq]
  simp

theorem generateBalanceSheet_liabilities (u : Nat) (asOf today : Date) (s : Store) :
    (generateBalanceSheet u asOf today s).liabilities =
      ⟨bsCatItems u s asOf.year asOf.month liability current chartList,
       bsCatItems u s asOf.year asOf.month liability long_term chartList,
       bsTypeTotal u s asOf.year asOf.month liability chartList⟩ := by
  simp only [generateBalanceSheet]
  rw [bsFold_eq]
  simp

theorem generateBalanceSheet_equity (u : Nat) (asOf today : Date) (s : Store) :
    (generateBalanceSheet u asOf today s).equity =
      ⟨bsTypeItems u s asOf.year asOf.month equity chartList ++
          (if 1/100 <
              |(generateIncomeStatement u ⟨today.year, 1, 1⟩ asOf s).net_income| then
            [⟨3200, "Current Year Earnings",
              |(generateIncomeStatement u ⟨today.year, 1, 1⟩ asOf s).net_income|⟩]
          else []),
        bsTypeTotal u s asOf.year asOf.month equity chartList +
          (if 1/100 <
              |(generateIncomeStatement u ⟨today.year, 1, 1⟩ asOf s).net_income| then
            |(generateIncomeStatement u ⟨today.year, 1, 1⟩ asOf s).net_income|
          else 0)⟩ := by
  simp only [generateBalanceSheet]
  rw [bsFold_eq]
  split_ifs with hn <;> simp

theorem generateBalanceSheet_tle (u : Nat) (asOf today : Date) (s : Store) :
    (generateBalanceSheet u asOf today s).total_liabilities_equity =
      (generateBalanceSheet u asOf today s).liabilities.total +
        (generateBalanceSheet u asOf today s).equity.total := rfl

theorem mem_bsCatItems {u : Nat} {s : Store} {year month : Nat} {t : AccountType}
    {cat : AccountCategory} {l : List (Nat × Account)} {item : BSItem}
    (h : item ∈ bsCatItems u s year month t cat l) :
    item.balance = |cumulativeBalance u s year month item.account_code| ∧
      1/100 < |cumulativeBalance u s year month item.account_code| := by
  simp only [bsCatItems, List.mem_filterMap] at h
  obtain ⟨p, _, hif⟩ := h
  split at hif
  case isTrue hcond =>
    obtain rfl : item = ⟨p.1, p.2.name, |cumulativeBalance u s year month p.1|⟩ :=
      (Option.some.inj hif).symm
    exact ⟨rfl, hcond.2.2⟩
  case isFalse => simp at hif

theorem mem_bsTypeItems {u : Nat} {s : Store} {year month : Nat} {t : AccountType}
    {l : List (Nat × Account)} {item : BSItem}
    (h : item ∈ bsTypeItems u s year month t l) :
    item.balance = |cumulativeBalance u s year month item.account_code| ∧
      1/100 < |cumulativeBalance u s year month item.account_code| := by
  simp only [bsTypeItems, List.mem_filterMap] at h
  obtain ⟨p, _, hif⟩ := h
  split at hif
  case isTrue hcond =>
    obtain rfl : item = ⟨p.1, p.2.name, |cumulativeBalance u s year month p.1|⟩ :=
      (Option.some.inj hif).symm
    exact ⟨rfl, hcond.2⟩
  case isFalse => simp at hif

/-- Every account item of a generated balance sheet (all asset and liability
category lists plus the equity account part). -/
def allBSItems (bs : BalanceSheet) : List BSItem :=
  bs.assets.current ++ bs.assets.fixed ++ bs.assets.investment ++
    bs.liabilities.current ++ bs.liabilities.long_term ++ bs.equity.items

/-! ## Claim C10 -/

/-- Claim C10: every amount reported on the balance sheet is an absolute
value — each listed account item carries the absolute cumulative balance of
its account (and only magnitudes above 0.01 are listed at all), and the
injected Current Year Earnings line carries the absolute net income, added
positively to the equity total even when the net income is a loss (with the
line omitted when the magnitude is at most 0.01). -/
theorem C10_absolute_amounts (u : Nat) (asOf today : Date) (s : Store) :
    (∀ item ∈ (generateBalanceSheet u asOf today s).assets.current ++
        (generateBalanceSheet u asOf today s).assets.fixed ++
        (generateBalanceSheet u asOf today s).assets.investment ++
        (generateBalanceSheet u asOf today s).liabilities.current ++
        (generateBalanceSheet u asOf today s).liabilities.long_term ++
        bsTypeItems u s asOf.year asOf.month equity chartList,
      item.balance = |cumulativeBalance u s asOf.year asOf.month item.account_code| ∧
        1/100 < |cumulativeBalance u s asOf.year asOf.month item.account_code|) ∧
      (generateBalanceSheet u asOf today s).equity.items =
        bsTypeItems u s asOf.year asOf.month equity chartList ++
          (if 1/100 <
              |(generateIncomeStatement u ⟨today.year, 1, 1⟩ asOf s).net_income| then
            [⟨3200, "Current Year Earnings",
              |(generateIncomeStatement u ⟨today.year, 1, 1⟩ asOf s).net_income|⟩]
          else []) ∧
      (generateBalanceSheet u asOf today s).equity.total =
        bsTypeTotal u s asOf.year asOf.month equity chartList +
          (if 1/100 <
              |(generateIncomeStatement u ⟨today.year, 1, 1⟩ asOf s).net_income| then
            |(generateIncomeStatement u ⟨today.year, 1, 1⟩ asOf s).net_income|
          else 0) := by
  have ha := generateBalanceSheet_assets u asOf today s
  have hl := generateBalanceSheet_liabilities u asOf today s
  have hq := generateBalanceSheet_equity u asOf today s
  refine ⟨?_, ?_, ?_⟩
  · intro item hmem
    simp only [List.mem_append] at hmem
    rcases hmem with ((((h | h) | h) | h) | h) | h
    · rw [ha] at h; exact mem_bsCatItems h
    · rw [ha] at h; exact mem_bsCatItems h
    · rw [ha] at h; exact mem_bsCatItems h
    · rw [hl] at h; exact mem_bsCatItems h
    · rw [hl] at h; exact mem_bsCatItems h
    · exact mem_bsTypeItems h
  · rw [hq]
  · rw [hq]

/-- Witness for C10: on the posted rent example (a net loss of 800), the
bank item carries the absolute cumulative balance 800, and the equity list
is the account part plus the absolute-valued earnings plug. -/
theorem C10_absolute_amounts_witness :
    ((⟨1100, "Bank - Current Account", (800 : Rat)⟩ : BSItem).balance =
        |cumulativeBalance 7 c3_good_store 2024 3 1100| ∧
      1/100 < |cumulativeBalance 7 c3_good_store 2024 3 1100|) ∧
      (generateBalanceSheet 7 ⟨2024, 3, 31⟩ ⟨2024, 3, 31⟩ c3_good_store).equity.items =
        bsTypeItems 7 c3_good_store 2024 3 equity chartList ++
          (if 1/100 <
              |(generateIncomeStatement 7 ⟨2024, 1, 1⟩ ⟨2024, 3, 31⟩ c3_good_store).net_income| then
            [⟨3200, "Current Year Earnings",
              |(generateIncomeStatement 7 ⟨2024, 1, 1⟩ ⟨2024, 3, 31⟩ c3_good_store).net_income|⟩]
          else []) := by
  have h := C10_absolute_amounts 7 ⟨2024, 3, 31⟩ ⟨2024, 3, 31⟩ c3_good_store
  exact ⟨h.1 ⟨1100, "Bank - Current Account", 800⟩ (by decide), h.2.1⟩

/-! ## Claim C5 -/

/-- The state after posting 100 into Cash against Owners Equity, dated
December 2023. -/
def c5_state : LedgerState :=
  (createJournalEntry 7 ⟨⟨2023, 12, 10⟩, "owner capital",
    [⟨1000, 100, 0⟩, ⟨3000, 0, 100⟩]⟩ ⟨[], emptyStore⟩).2

/-- Claim C5 counterexample: a posting from December 2023 leaves a bucket of
100 in account 1000, yet a balance sheet as of February 2024 reports no
asset items and an asset total of zero — the cumulative loop covers only the
months of the asOfDate's own calendar year, not all tracked years. -/
theorem C5_counterexample :
    (createJournalEntry 7 ⟨⟨2023, 12, 10⟩, "owner capital",
        [⟨1000, 100, 0⟩, ⟨3000, 0, 100⟩]⟩ ⟨[], emptyStore⟩).1.isOk = true ∧
      (c5_state.buckets.read (7, 1000, 2023, 12)).balance = 100 ∧
      (generateBalanceSheet 7 ⟨2024, 2, 1⟩ ⟨2024, 2, 1⟩ c5_state.buckets).assets.current = [] ∧
      (generateBalanceSheet 7 ⟨2024, 2, 1⟩ ⟨2024, 2, 1⟩ c5_state.buckets).assets.total = 0 := by
  decide

theorem chart_asset_cats :
    ∀ p ∈ chartList, p.2.type = asset →
      (p.2.category = current ∨ p.2.category = fixed ∨ p.2.category = investment) := by
  decide

theorem chart_liability_cats :
    ∀ p ∈ chartList, p.2.type = liability →
      (p.2.category = current ∨ p.2.category = long_term) := by
  decide

/-- Claim C5 (amended): the balance sheet's reported amount for an
asset/liability/equity account is the absolute sum of the account's bucket
balances over months 1 through month(asOfDate) of year(asOfDate) only —
buckets of earlier calendar years are not read (this is what
`cumulativeBalance` sums); the account appears (with that amount) exactly
when the magnitude exceeds 0.01.  (Code 3200 is excluded here because the
synthetic earnings line shares it.) -/
theorem C5_current_year_cumulative (u : Nat) (asOf today : Date) (s : Store)
    (c : Nat) (a : Account) (hc : chartOfAccounts c = some a)
    (ht : a.type = asset ∨ a.type = liability ∨ a.type = equity)
    (hne : c ≠ 3200) :
    (∀ item ∈ allBSItems (generateBalanceSheet u asOf today s),
        item.account_code = c →
          item.balance = |cumulativeBalance u s asOf.year asOf.month c|) ∧
      (1/100 < |cumulativeBalance u s asOf.year asOf.month c| →
        ∃ item ∈ allBSItems (generateBalanceSheet u asOf today s),
          item.account_code = c ∧
            item.balance = |cumulativeBalance u s asOf.year asOf.month c|) := by
  have ha := generateBalanceSheet_assets u asOf today s
  have hl := generateBalanceSheet_liabilities u asOf today s
  have hq := generateBalanceSheet_equity u asOf today s
  have hmemchart := chartOfAccounts_mem hc
  have hA1 : (generateBalanceSheet u asOf today s).assets.current =
      bsCatItems u s asOf.year asOf.month asset current chartList := by rw [ha]
  have hA2 : (generateBalanceSheet u asOf today s).assets.fixed =
      bsCatItems u s asOf.year asOf.month asset fixed chartList := by rw [ha]
  have hA3 : (generateBalanceSheet u asOf today s).assets.investment =
      bsCatItems u s asOf.year asOf.month asset investment chartList := by rw [ha]
  have hL1 : (generateBalanceSheet u asOf today s).liabilities.current =
      bsCatItems u s asOf.year asOf.month liability current chartList := by rw [hl]
  have hL2 : (generateBalanceSheet u asOf today s).liabilities.long_term =
      bsCatItems u s asOf.year asOf.month liability long_term chartList := by rw [hl]
  have hE : (generateBalanceSheet u asOf today s).equity.items =
      bsTypeItems u s asOf.year asOf.month equity chartList ++
        (if 1/100 <
            |(generateIncomeStatement u ⟨today.year, 1, 1⟩ asOf s).net_income| then
          [⟨3200, "Current Year Earnings",
            |(generateIncomeStatement u ⟨today.year, 1, 1⟩ asOf s).net_income|⟩]
        else []) := by rw [hq]
  constructor
  · intro item hmem heq
    simp only [allBSItems, List.mem_append] at hmem
    rcases hmem with ((((h | h) | h) | h) | h) | h
    · rw [hA1] at h; exact heq ▸ (mem_bsCatItems h).1
    · rw [hA2] at h; exact heq ▸ (mem_bsCatItems h).1
    · rw [hA3] at h; exact heq ▸ (mem_bsCatItems h).1
    · rw [hL1] at h; exact heq ▸ (mem_bsCatItems h).1
    · rw [hL2] at h; exact heq ▸ (mem_bsCatItems h).1
    · rw [hE] at h
      rcases List.mem_append.mp h with h2 | h2
      · exact heq ▸ (mem_bsTypeItems h2).1
      · exfalso
        by_cases hcnd : 1/100 <
            |(generateIncomeStatement u ⟨today.year, 1, 1⟩ asOf s).net_income|
        · rw [if_pos hcnd] at h2
          simp only [List.mem_singleton] at h2
          rw [h2] at heq
          exact hne heq.symm
        · rw [if_neg hcnd] at h2
          simp at h2
  · intro hth
    have hitem : ∀ cat : AccountCategory, a.category = cat →
        (⟨c, a.name, |cumulativeBalance u s asOf.year asOf.month c|⟩ : BSItem) ∈
          bsCatItems u s asOf.year asOf.month a.type cat chartList := by
      intro cat hcat
      simp only [bsCatItems, List.mem_filterMap]
      exact ⟨(c, a), hmemchart, by rw [if_pos ⟨rfl, hcat, hth⟩]⟩
    have hitemt : (⟨c, a.name, |cumulativeBalance u s asOf.year asOf.month c|⟩ : BSItem) ∈
        bsTypeItems u s asOf.year asOf.month a.type chartList := by
      simp only [bsTypeItems, List.mem_filterMap]
      exact ⟨(c, a), hmemchart, by rw [if_pos ⟨rfl, hth⟩]⟩
    refine ⟨⟨c, a.name, |cumulativeBalance u s asOf.year asOf.month c|⟩, ?_, rfl, rfl⟩
    simp only [allBSItems]
    rw [hA1, hA2, hA3, hL1, hL2, hE]
    rcases ht with hta | htl | htq
    · rcases chart_asset_cats (c, a) hmemchart hta with h1 | h1 | h1
      · have h2 := hitem current h1; rw [hta] at h2
        exact List.mem_append_left _ (List.mem_append_left _ (List.mem_append_left _
          (List.mem_append_left _ (List.mem_append_left _ h2))))
      · have h2 := hitem fixed h1; rw [hta] at h2
        exact List.mem_append_left _ (List.mem_append_left _ (List.mem_append_left _
          (List.mem_append_left _ (List.mem_append_right _ h2))))
      · have h2 := hitem investment h1; rw [hta] at h2
        exact List.mem_append_left _ (List.mem_append_left _ (List.mem_append_left _
          (List.mem_append_right _ h2)))
    · rcases chart_liability_cats (c, a) hmemchart htl with h1 | h1
      · have h2 := hitem current h1; rw [htl] at h2
        exact List.mem_append_left _ (List.mem_append_left _ (List.mem_append_right _ h2))
      · have h2 := hitem long_term h1; rw [htl] at h2
        exact List.mem_append_left _ (List.mem_append_right _ h2)
    · have h2 := hitemt; rw [htq] at h2
      exact List.mem_append_right _ (List.mem_append_left _ h2)

/-- Witness for the amended C5: account 1100 on the posted rent example has
cumulative magnitude 800 over months 1..3 of 2024, so the balance sheet
lists it with exactly that amount. -/
theorem C5_current_year_cumulative_witness :
    ∃ item ∈ allBSItems (generateBalanceSheet 7 ⟨2024, 3, 31⟩ ⟨2024, 3, 31⟩ c3_good_store),
      item.account_code = 1100 ∧
        item.balance = |cumulativeBalance 7 c3_good_store 2024 3 1100| :=
  (C5_current_year_cumulative 7 ⟨2024, 3, 31⟩ ⟨2024, 3, 31⟩ c3_good_store 1100
    ⟨"Bank - Current Account", asset, current, false⟩
    (by decide) (by decide) (by decide)).2 (by decide)

/-! ## Claim C7 -/

/-- Closed form of the trial-balance line list over a chart fragment. -/
def tbItems (u year month : Nat) (s : Store) (l : List (Nat × Account)) : List TBEntry :=
  l.filterMap fun p =>
    match s (u, p.1, year, month) with
    | none => none
    | some b =>
      if b.balance ≠ 0 ∨ b.total_debits ≠ 0 ∨ b.total_credits ≠ 0 then
        some (tbEntryOf p b)
      else none

theorem tbItems_append (u year month : Nat) (s : Store)
    (l1 l2 : List (Nat × Account)) :
    tbItems u year month s (l1 ++ l2) =
      tbItems u year month s l1 ++ tbItems u year month s l2 := by
  simp [tbItems, List.filterMap_append]

theorem tbStep_eq (u year month : Nat) (s : Store)
    (acc : List TBEntry × Rat × Rat) (p : Nat × Account) :
    tbStep u year month s acc p =
      (acc.1 ++ tbItems u year month s [p],
        acc.2.1 + ((tbItems u year month s [p]).map TBEntry.debit_balance).sum,
        acc.2.2 + ((tbItems u year month s [p]).map TBEntry.credit_balance).sum) := by
  cases hb : s (u, p.1, year, month) with
  | none => simp [tbStep, tbItems, hb]
  | some b =>
    by_cases hnz : b.balance ≠ 0 ∨ b.total_debits ≠ 0 ∨ b.total_credits ≠ 0 <;>
      simp [tbStep, tbItems, hb, hnz, -one_div]

theorem tbFold_eq (u year month : Nat) (s : Store) (l : List (Nat × Account))
    (acc : List TBEntry × Rat × Rat) :
    l.foldl (tbStep u year month s) acc =
      (acc.1 ++ tbItems u year month s l,
        acc.2.1 + ((tbItems u year month s l).map TBEntry.debit_balance).sum,
        acc.2.2 + ((tbItems u year month s l).map TBEntry.credit_balance).sum) := by
  induction l generalizing acc with
  | nil => simp [tbItems]
  | cons p tl ih =>
    rw [List.foldl_cons, ih, tbStep_eq, show p :: tl = [p] ++ tl from rfl]
    simp only [tbItems_append]
    simp [List.append_assoc, add_assoc]

theorem getTrialBalance_accounts (u year month : Nat) (s : Store) :
    (getTrialBalance u year month s).accounts = tbItems u year month s chartList := by
  simp only [getTrialBalance]
  rw [tbFold_eq]
  simp

theorem getTrialBalance_totals (u year month : Nat) (s : Store) :
    (getTrialBalance u year month s).total_debits =
        (((getTrialBalance u year month s).accounts).map TBEntry.debit_balance).sum ∧
      (getTrialBalance u year month s).total_credits =
        (((getTrialBalance u year month s).accounts).map TBEntry.credit_balance).sum := by
  rw [getTrialBalance_accounts]
  simp only [getTrialBalance]
  rw [tbFold_eq]
  simp

/-- Claim C7 (amended): every chart account with a present bucket holding a
non-zero field yields exactly the line described by `tbEntryOf` (positive
balance placed on the account type's normal side, totals read straight from
the bucket); the statement totals are the sums of the line debit/credit
balances; and `is_balanced` holds iff their difference is STRICTLY below
0.01 — not at-most 0.01 as the claim stated. -/
theorem C7_trial_balance (u year month : Nat) (s : Store) :
    (∀ p ∈ chartList, ∀ b : Bucket, s (u, p.1, year, month) = some b →
      (b.balance ≠ 0 ∨ b.total_debits ≠ 0 ∨ b.total_credits ≠ 0) →
        tbEntryOf p b ∈ (getTrialBalance u year month s).accounts) ∧
      (∀ (p : Nat × Account) (b : Bucket), tbEntryOf p b =
        ⟨p.1, p.2.name, p.2.type,
          if 0 < b.balance ∧ (p.2.type = asset ∨ p.2.type = expense) then b.balance else 0,
          if 0 < b.balance ∧
              (p.2.type = liability ∨ p.2.type = equity ∨ p.2.type = revenue) then
            b.balance
          else 0,
          b.total_debits, b.total_credits⟩) ∧
      (getTrialBalance u year month s).total_debits =
        (((getTrialBalance u year month s).accounts).map TBEntry.debit_balance).sum ∧
      (getTrialBalance u year month s).total_credits =
        (((getTrialBalance u year month s).accounts).map TBEntry.credit_balance).sum ∧
      ((getTrialBalance u year month s).is_balanced = true ↔
        |(getTrialBalance u year month s).total_debits -
          (getTrialBalance u year month s).total_credits| < 1/100) := by
  refine ⟨?_, fun p b => rfl, (getTrialBalance_totals u year month s).1,
    (getTrialBalance_totals u year month s).2, ?_⟩
  · intro p hp b hb hnz
    rw [getTrialBalance_accounts]
    simp only [tbItems, List.mem_filterMap]
    refine ⟨p, hp, ?_⟩
    rw [hb]
    exact if_pos hnz
  · simp only [getTrialBalance]
    rw [tbFold_eq]
    simp [decide_eq_true_eq]

/-- The state after posting an entry imbalanced by exactly 0.01 (accepted,
since the posting guard is strict). -/
def c7_state : LedgerState :=
  (createJournalEntry 7 ⟨⟨2024, 3, 10⟩, "boundary",
    [⟨1000, 100 + 1/100, 0⟩, ⟨4000, 0, 100⟩]⟩ ⟨[], emptyStore⟩).2

/-- Claim C7 counterexample: a posted (hence reachable) ledger whose trial
balance has total debits 100.01 and total credits 100 — a difference of
exactly 0.01, which satisfies the claim's at-most-0.01 condition — yet
`is_balanced` is false, because the code compares with strict `< 0.01`. -/
theorem C7_counterexample :
    (createJournalEntry 7 ⟨⟨2024, 3, 10⟩, "boundary",
        [⟨1000, 100 + 1/100, 0⟩, ⟨4000, 0, 100⟩]⟩ ⟨[], emptyStore⟩).1.isOk = true ∧
      (getTrialBalance 7 2024 3 c7_state.buckets).total_debits = 100 + 1/100 ∧
      (getTrialBalance 7 2024 3 c7_state.buckets).total_credits = 100 ∧
      |(100 + 1/100 : Rat) - 100| ≤ 1/100 ∧
      (getTrialBalance 7 2024 3 c7_state.buckets).is_balanced = false := by
  decide

/-- Witness for the amended C7 at the boundary ledger: account 1000's bucket
yields its line in the trial balance, and `is_balanced` being false forces
the strict inequality to fail. -/
theorem C7_trial_balance_witness :
    tbEntryOf (1000, ⟨"Cash", asset, current, false⟩)
        ⟨100 + 1/100, 0, 100 + 1/100⟩ ∈
      (getTrialBalance 7 2024 3 c7_state.buckets).accounts := by
  have h := C7_trial_balance 7 2024 3 c7_state.buckets
  exact h.1 (1000, ⟨"Cash", asset, current, false⟩) (by decide)
    ⟨100 + 1/100, 0, 100 + 1/100⟩ (by decide) (by decide)

/-! ## Claim C4: list-sum helpers -/

theorem sum_map_add {α : Type} (l : List α) (f g : α → Rat) :
    (l.map fun x => f x + g x).sum = (l.map f).sum + (l.map g).sum := by
  induction l with
  | nil => simp
  | cons a tl ih => simp [ih]; ring

theorem sum_map_sub {α : Type} (l : List α) (f g : α → Rat) :
    (l.map fun x => f x - g x).sum = (l.map f).sum - (l.map g).sum := by
  induction l with
  | nil => simp
  | cons a tl ih => simp [ih]; ring

theorem sum_map_neg {α : Type} (l : List α) (f : α → Rat) :
    (l.map fun x => -f x).sum = -(l.map f).sum := by
  induction l with
  | nil => simp
  | cons a tl ih => simp [ih]; ring

theorem sum_map_zero {α : Type} (l : List α) :
    (l.map fun _ => (0 : Rat)).sum = 0 := by
  induction l with
  | nil => simp
  | cons a tl ih => simp [ih]

theorem sum_map_ite_eq {α : Type} [DecidableEq α] (l : List α) (x : α) (δ : Rat)
    (hnd : l.Nodup) (hx : x ∈ l) :
    (l.map fun i => if i = x then δ else 0).sum = δ := by
  induction l with
  | nil => cases hx
  | cons q tl ih =>
    simp only [List.map_cons, List.sum_cons]
    have hnd1 : q ∉ tl := (List.nodup_cons.mp hnd).1
    have hnd2 : tl.Nodup := (List.nodup_cons.mp hnd).2
    rcases List.mem_cons.mp hx with heq | hx2
    · have hz : ∀ i ∈ tl, (if i = x then δ else 0) = 0 := by
        intro i hi
        refine if_neg fun he => hnd1 ?_
        rw [← heq, ← he]
        exact hi
      rw [if_pos heq.symm, List.map_congr_left hz, sum_map_zero]
      ring
    · have hq : q ≠ x := fun he => hnd1 (by rw [he]; exact hx2)
      rw [if_neg hq, ih hnd2 hx2]
      ring

theorem sum_map_ite_fst (l : List (Nat × Account))
    (hnd : (l.map Prod.fst).Nodup) (c : Nat) (a : Account)
    (hmem : (c, a) ∈ l) (F : Account → Rat) :
    (l.map fun p => if p.1 = c then F p.2 else 0).sum = F a := by
  induction l with
  | nil => cases hmem
  | cons q tl ih =>
    simp only [List.map_cons, List.sum_cons]
    simp only [List.map_cons] at hnd
    have hnd1 : q.1 ∉ tl.map Prod.fst := (List.nodup_cons.mp hnd).1
    have hnd2 : (tl.map Prod.fst).Nodup := (List.nodup_cons.mp hnd).2
    rcases List.mem_cons.mp hmem with heq | h2
    · have hq1 : c = q.1 := congrArg Prod.fst heq
      have hq2 : a = q.2 := congrArg Prod.snd heq
      have hz : ∀ p ∈ tl, (if p.1 = c then F p.2 else 0) = 0 := by
        intro p hp
        refine if_neg fun he => hnd1 ?_
        rw [← hq1, ← he]
        exact List.mem_map.mpr ⟨p, hp, rfl⟩
      rw [if_pos hq1.symm, ← hq2, List.map_congr_left hz, sum_map_zero]
      ring
    · have hc : c ∈ tl.map Prod.fst := List.mem_map.mpr ⟨(c, a), h2, rfl⟩
      have hq : q.1 ≠ c := fun he => hnd1 (by rw [he]; exact hc)
      rw [if_neg hq, ih hnd2 h2]
      ring

theorem sum_map_swap {α β : Type} (l : List α) (r : List β) (f : α → β → Rat) :
    (l.map fun x => (r.map fun y => f x y).sum).sum =
      (r.map fun y => (l.map fun x => f x y).sum).sum := by
  induction l with
  | nil => simp [sum_map_zero]
  | cons a tl ih =>
    simp only [List.map_cons, List.sum_cons, ih, ← sum_map_add]

theorem chart_codes_nodup : (chartList.map Prod.fst).Nodup := by decide

/-! ## Claim C4: the signed-sum invariant of posting -/

/-- The normal-balance weight the posting engine effectively applies:
+1 for asset/expense accounts, −1 otherwise. -/
def typeWeight (a : Account) : Rat :=
  if a.type = asset ∨ a.type = expense then 1 else -1

/-- The weighted sum of every chart account's cumulative balance over months
`1 .. M` of year `Y`. Balanced postings (dated inside that window, with
resolving codes) leave this quantity unchanged. -/
def chartSignedSum (u Y M : Nat) (st : Store) : Rat :=
  (chartList.map fun p => typeWeight p.2 * cumulativeBalance u st Y M p.1).sum

/-- Posting the journal entries of a list one after the other. -/
def postAll (u : Nat) (js : List JournalEntry) (st : Store) : Store :=
  js.foldl (fun s j => updateGeneralLedger u j s) st

theorem cumulativeBalance_empty (u Y M c : Nat) :
    cumulativeBalance u emptyStore Y M c = 0 := by
  unfold cumulativeBalance
  have hz : ∀ i ∈ List.range M,
      ((emptyStore : Store).read (u, c, Y, i + 1)).balance = 0 := by
    intro i _
    rfl
  rw [List.map_congr_left hz, sum_map_zero]

theorem chartSignedSum_empty (u Y M : Nat) : chartSignedSum u Y M emptyStore = 0 := by
  unfold chartSignedSum
  have hz : ∀ p ∈ chartList,
      typeWeight p.2 * cumulativeBalance u emptyStore Y M p.1 = 0 := by
    intro p _
    rw [cumulativeBalance_empty]
    ring
  rw [List.map_congr_left hz, sum_map_zero]

theorem cumulativeBalance_postLine (u Y M mo : Nat) (st : Store) (e : LineEntry)
    (hm1 : 1 ≤ mo) (hm2 : mo ≤ M) (c : Nat) :
    cumulativeBalance u (postLine u Y mo st e) Y M c =
      cumulativeBalance u st Y M c +
        (if c = e.account_code then balanceChangeOf e else 0) := by
  unfold cumulativeBalance
  by_cases hc : c = e.account_code
  · have hpt : ∀ i ∈ List.range M,
        ((postLine u Y mo st e).read (u, c, Y, i + 1)).balance =
          (st.read (u, c, Y, i + 1)).balance +
            (if i = mo - 1 then balanceChangeOf e else 0) := by
      intro i _
      rw [read_postLine]
      by_cases hi : i = mo - 1
      · have hkey : ((u, c, Y, i + 1) : BucketKey) = (u, e.account_code, Y, mo) := by
          rw [hc, hi]
          have : mo - 1 + 1 = mo := Nat.succ_pred_eq_of_pos hm1
          rw [this]
        rw [if_pos hkey, if_pos hi]
        simp [Bucket.add, postDelta]
      · have hkey : ((u, c, Y, i + 1) : BucketKey) ≠ (u, e.account_code, Y, mo) := by
          intro hk
          apply hi
          have h4 := congrArg (fun q : BucketKey => q.2.2.2) hk
          simp only at h4
          omega
        rw [if_neg hkey, if_neg hi]
        ring
    rw [List.map_congr_left hpt, sum_map_add, if_pos hc,
      sum_map_ite_eq (List.range M) (mo - 1) _ (List.nodup_range M)
        (List.mem_range.mpr (by omega))]
  · have hpt : ∀ i ∈ List.range M,
        ((postLine u Y mo st e).read (u, c, Y, i + 1)).balance =
          (st.read (u, c, Y, i + 1)).balance := by
      intro i _
      rw [read_postLine, if_neg]
      intro hk
      exact hc (congrArg (fun q : BucketKey => q.2.1) hk)
    rw [List.map_congr_left hpt, if_neg hc]
    ring

theorem weight_mul_balanceChange (e : LineEntry) (a : Account)
    (ha : chartOfAccounts e.account_code = some a) :
    typeWeight a * balanceChangeOf e = e.debit_amount - e.credit_amount := by
  simp only [typeWeight, balanceChangeOf, ha]
  by_cases ht : a.type = asset ∨ a.type = expense
  · rw [if_pos ht, if_pos ht]; ring
  · rw [if_neg ht, if_neg ht]; ring

theorem chartSignedSum_postLine (u Y M mo : Nat) (st : Store) (e : LineEntry)
    (a : Account) (ha : chartOfAccounts e.account_code = some a)
    (hm1 : 1 ≤ mo) (hm2 : mo ≤ M) :
    chartSignedSum u Y M (postLine u Y mo st e) =
      chartSignedSum u Y M st + (e.debit_amount - e.credit_amount) := by
  unfold chartSignedSum
  have hpt : ∀ p ∈ chartList,
      typeWeight p.2 * cumulativeBalance u (postLine u Y mo st e) Y M p.1 =
        typeWeight p.2 * cumulativeBalance u st Y M p.1 +
          (if p.1 = e.account_code then typeWeight p.2 * balanceChangeOf e else 0) := by
    intro p _
    rw [cumulativeBalance_postLine u Y M mo st e hm1 hm2]
    by_cases hpc : p.1 = e.account_code
    · rw [if_pos hpc, if_pos hpc]; ring
    · rw [if_neg hpc, if_neg hpc]; ring
  rw [List.map_congr_left hpt, sum_map_add,
    sum_map_ite_fst chartList chart_codes_nodup e.account_code a
      (chartOfAccounts_mem ha) (fun x => typeWeight x * balanceChangeOf e),
    weight_mul_balanceChange e a ha]

theorem chartSignedSum_foldl (u Y M mo : Nat) (l : List LineEntry) (st : Store)
    (hres : ∀ e ∈ l, (chartOfAccounts e.account_code).isSome)
    (hm1 : 1 ≤ mo) (hm2 : mo ≤ M) :
    chartSignedSum u Y M (l.foldl (postLine u Y mo) st) =
      chartSignedSum u Y M st +
        ((l.map LineEntry.debit_amount).sum - (l.map LineEntry.credit_amount).sum) := by
  induction l generalizing st with
  | nil => simp
  | cons e tl ih =>
    obtain ⟨a, ha⟩ := Option.isSome_iff_exists.mp (hres e (by simp))
    rw [List.foldl_cons,
      ih (postLine u Y mo st e) fun e2 h2 => hres e2 (List.mem_cons_of_mem _ h2),
      chartSignedSum_postLine u Y M mo st e a ha hm1 hm2]
    simp only [List.map_cons, List.sum_cons]
    ring

theorem chartSignedSum_update (u Y M : Nat) (st : Store) (j : JournalEntry)
    (hres : ∀ e ∈ j.entries, (chartOfAccounts e.account_code).isSome)
    (hy : j.date.year = Y) (hm1 : 1 ≤ j.date.month) (hm2 : j.date.month ≤ M) :
    chartSignedSum u Y M (updateGeneralLedger u j st) =
      chartSignedSum u Y M st +
        ((j.entries.map LineEntry.debit_amount).sum -
          (j.entries.map LineEntry.credit_amount).sum) := by
  unfold updateGeneralLedger
  rw [hy]
  exact chartSignedSum_foldl u Y M j.date.month j.entries st hres hm1 hm2

theorem chartSignedSum_postAll (u Y M : Nat) (js : List JournalEntry)
    (hjs : ∀ j ∈ js,
      (j.entries.map LineEntry.debit_amount).sum =
          (j.entries.map LineEntry.credit_amount).sum ∧
        (∀ e ∈ j.entries, (chartOfAccounts e.account_code).isSome) ∧
        j.date.year = Y ∧ 1 ≤ j.date.month ∧ j.date.month ≤ M) :
    chartSignedSum u Y M (postAll u js emptyStore) = 0 := by
  suffices h : ∀ st, chartSignedSum u Y M st = 0 →
      chartSignedSum u Y M (postAll u js st) = 0 by
    exact h emptyStore (chartSignedSum_empty u Y M)
  induction js with
  | nil => intro st h0; exact h0
  | cons j tl ih =>
    intro st h0
    have hj := hjs j (by simp)
    have htl := fun j2 h2 => hjs j2 (List.mem_cons_of_mem _ h2)
    unfold postAll
    rw [List.foldl_cons]
    refine ih htl (updateGeneralLedger u j st) ?_
    rw [chartSignedSum_update u Y M st j hj.2.1 hj.2.2.1 hj.2.2.2.1 hj.2.2.2.2,
      h0, hj.1]
    ring

/-! ## Claim C4: income-statement net characterization -/

/-- Per-account, per-month contribution to the net income: a revenue bucket
balance counts positively, an expense bucket balance negatively (assuming
the nonnegative balances under which `Math.abs` is the identity). -/
def netContrib (u : Nat) (s : Store) (d : Date) (p : Nat × Account) : Rat :=
  if p.2.type = revenue then (s.read (u, p.1, d.year, d.month)).balance
  else if p.2.type = expense then -(s.read (u, p.1, d.year, d.month)).balance
  else 0

/-- The net-income reading of an in-progress accumulator. -/
def isNet (a : ISAccum) : Rat :=
  a.revenue.total + a.other_income.total - a.cogs.total -
    a.operating_expenses.total - a.other_expenses.total

theorem isNet_accountStep (u : Nat) (s : Store) (d : Date) (acc : ISAccum)
    (p : Nat × Account)
    (hnn : (p.2.type = revenue ∨ p.2.type = expense) →
      0 ≤ (s.read (u, p.1, d.year, d.month)).balance) :
    isNet (isAccountStep u s d acc p) = isNet acc + netContrib u s d p := by
  obtain ⟨c, a⟩ := p
  obtain ⟨nm, ty, catg, ic⟩ := a
  cases ty
  case asset => simp [isAccountStep, netContrib, isNet]
  case liability => simp [isAccountStep, netContrib, isNet]
  case equity => simp [isAccountStep, netContrib, isNet]
  case revenue =>
    by_cases hb : (s.read (u, c, d.year, d.month)).balance = 0
    · simp [isAccountStep, netContrib, isNet, hb]
    · have h0 : 0 ≤ (s.read (u, c, d.year, d.month)).balance := hnn (Or.inl rfl)
      by_cases hcat : catg = operating <;>
        simp [isAccountStep, netContrib, isNet, hb, hcat, ISSection.push,
          abs_of_nonneg h0] <;>
        ring
  case expense =>
    by_cases hb : (s.read (u, c, d.year, d.month)).balance = 0
    · simp [isAccountStep, netContrib, isNet, hb]
    · have h0 : 0 ≤ (s.read (u, c, d.year, d.month)).balance := hnn (Or.inr rfl)
      by_cases h1 : catg = cogs <;> by_cases h2 : catg = operating <;>
        simp [isAccountStep, netContrib, isNet, hb, h1, h2, ISSection.push,
          abs_of_nonneg h0] <;>
        ring

theorem isNet_chartFold (u : Nat) (s : Store) (d : Date)
    (l : List (Nat × Account)) (acc : ISAccum)
    (hnn : ∀ p ∈ l, (p.2.type = revenue ∨ p.2.type = expense) →
      0 ≤ (s.read (u, p.1, d.year, d.month)).balance) :
    isNet (l.foldl (isAccountStep u s d) acc) =
      isNet acc + (l.map (netContrib u s d)).sum := by
  induction l generalizing acc with
  | nil => simp
  | cons p tl ih =>
    rw [List.foldl_cons,
      ih (isAccountStep u s d acc p) fun p2 h2 => hnn p2 (List.mem_cons_of_mem _ h2),
      isNet_accountStep u s d acc p (hnn p (by simp))]
    simp only [List.map_cons, List.sum_cons]
    ring

theorem isNet_monthFold (u : Nat) (s : Store) (ms : List Date) (acc : ISAccum)
    (hnn : ∀ d ∈ ms, ∀ p ∈ chartList,
      (p.2.type = revenue ∨ p.2.type = expense) →
        0 ≤ (s.read (u, p.1, d.year, d.month)).balance) :
    isNet (ms.foldl (isMonthStep u s) acc) =
      isNet acc + (ms.map fun d => (chartList.map (netContrib u s d)).sum).sum := by
  induction ms generalizing acc with
  | nil => simp
  | cons d tl ih =>
    rw [List.foldl_cons,
      ih (isMonthStep u s acc d) fun d2 h2 => hnn d2 (List.mem_cons_of_mem _ h2)]
    rw [show isMonthStep u s acc d = chartList.foldl (isAccountStep u s d) acc from rfl,
      isNet_chartFold u s d chartList acc (hnn d (by simp))]
    simp only [List.map_cons, List.sum_cons]
    ring

theorem net_income_eq (u : Nat) (d1 d2 : Date) (s : Store) :
    (generateIncomeStatement u d1 d2 s).net_income =
      isNet ((monthsBetween d1 d2).foldl (isMonthStep u s) ISAccum.init) := by
  simp only [generateIncomeStatement, isNet]
  ring

/-! ## Claim C4: the month loop over a single year -/

theorem daysInMonth_pos (y m : Nat) : 1 ≤ daysInMonth y m := by
  unfold daysInMonth
  split_ifs <;> omega

theorem addOneMonth_day1 (Y m0 : Nat) (h12 : m0 ≤ 12) :
    addOneMonth ⟨Y, m0, 1⟩ = if m0 = 12 then ⟨Y + 1, 1, 1⟩ else ⟨Y, m0 + 1, 1⟩ := by
  unfold addOneMonth
  by_cases hm : m0 = 12
  · subst hm
    have h31 : ¬(daysInMonth (Y + 1) 1 < 1) := by
      have := daysInMonth_pos (Y + 1) 1; omega
    simp [h31]
  · have hx : ¬(12 < m0 + 1) := by omega
    have h31 : ¬(daysInMonth Y (m0 + 1) < 1) := by
      have := daysInMonth_pos Y (m0 + 1); omega
    simp [hx, h31, hm]

theorem monthsBetweenGo_year (Y M day : Nat) (hM12 : M ≤ 12) (hday : 1 ≤ day) :
    ∀ (k m0 : Nat), 1 ≤ m0 → m0 ≤ M → M - m0 + 1 ≤ k →
      monthsBetweenGo ⟨Y, M, day⟩ ⟨Y, m0, 1⟩ k =
        (List.range (M - m0 + 1)).map fun i => (⟨Y, m0 + i, 1⟩ : Date) := by
  intro k
  induction k with
  | zero => intro m0 _ _ hk; omega
  | succ k ih =>
    intro m0 h1 h2 hk
    have hle : dateLe ⟨Y, m0, 1⟩ ⟨Y, M, day⟩ = true := by
      simp [dateLe]; omega
    rw [monthsBetweenGo, if_pos hle]
    by_cases hm : m0 = M
    · subst hm
      have htail : monthsBetweenGo ⟨Y, m0, day⟩ (addOneMonth ⟨Y, m0, 1⟩) k = [] := by
        cases k with
        | zero => rfl
        | succ k2 =>
          rw [addOneMonth_day1 Y m0 hM12]
          by_cases h12 : m0 = 12
          · rw [if_pos h12, monthsBetweenGo, if_neg]
            simp only [dateLe, decide_eq_true_eq]
            omega
          · rw [if_neg h12, monthsBetweenGo, if_neg]
            simp only [dateLe, decide_eq_true_eq]
            omega
      rw [htail]
      have hr : m0 - m0 + 1 = 1 := by omega
      rw [hr]
      exact rfl
    · rw [addOneMonth_day1 Y m0 (by omega), if_neg (show m0 ≠ 12 by omega),
        ih (m0 + 1) (by omega) (by omega) (by omega)]
      have hr : M - m0 + 1 = (M - (m0 + 1) + 1) + 1 := by omega
      rw [hr]
      conv_rhs => rw [List.range_succ_eq_map]
      simp only [List.map_cons, List.map_map]
      refine congrArg₂ List.cons rfl (List.map_congr_left fun i _ => ?_)
      simp only [Function.comp_apply, Date.mk.injEq]
      exact ⟨trivial, by omega, trivial⟩

theorem monthsBetween_year (Y M day : Nat) (hM1 : 1 ≤ M) (hM12 : M ≤ 12)
    (hday : 1 ≤ day) :
    monthsBetween ⟨Y, 1, 1⟩ ⟨Y, M, day⟩ =
      (List.range M).map fun i => (⟨Y, 1 + i, 1⟩ : Date) := by
  unfold monthsBetween
  have hf : ((⟨Y, M, day⟩ : Date).year * 12 + (⟨Y, M, day⟩ : Date).month + 2) -
      ((⟨Y, 1, 1⟩ : Date).year * 12 + (⟨Y, 1, 1⟩ : Date).month) = M + 1 := by
    show Y * 12 + M + 2 - (Y * 12 + 1) = M + 1
    omega
  rw [hf, monthsBetweenGo_year Y M day hM12 hday (M + 1) 1 le_rfl hM1 (by omega)]
  have hr : M - 1 + 1 = M := by omega
  rw [hr]

/-! ## Claim C4: assembling the identity -/

/-- Sum of the cumulative balances (months 1..M of year Y) of the chart
accounts of one type. -/
def typeCumSum (u : Nat) (s : Store) (Y M : Nat) (t : AccountType) : Rat :=
  (chartList.map fun p =>
    if p.2.type = t then cumulativeBalance u s Y M p.1 else 0).sum

theorem net_income_year (u Y M day : Nat) (s : Store)
    (hM1 : 1 ≤ M) (hM12 : M ≤ 12) (hday : 1 ≤ day)
    (hre : ∀ p ∈ chartList, (p.2.type = revenue ∨ p.2.type = expense) →
      ∀ i ∈ List.range M, 0 ≤ (s.read (u, p.1, Y, i + 1)).balance) :
    (generateIncomeStatement u ⟨Y, 1, 1⟩ ⟨Y, M, day⟩ s).net_income =
      typeCumSum u s Y M revenue - typeCumSum u s Y M expense := by
  rw [net_income_eq, monthsBetween_year Y M day hM1 hM12 hday]
  have hnn : ∀ d ∈ (List.range M).map (fun i => (⟨Y, 1 + i, 1⟩ : Date)),
      ∀ p ∈ chartList, (p.2.type = revenue ∨ p.2.type = expense) →
        0 ≤ (s.read (u, p.1, d.year, d.month)).balance := by
    intro d hd p hp htp
    obtain ⟨i, hi, rfl⟩ := List.mem_map.mp hd
    have h := hre p hp htp i hi
    show 0 ≤ (s.read (u, p.1, Y, 1 + i)).balance
    have hadd : 1 + i = i + 1 := by omega
    rw [hadd]
    exact h
  rw [isNet_monthFold u s _ ISAccum.init hnn]
  have hinit : isNet ISAccum.init = 0 := by simp [ISAccum.init, isNet]
  rw [hinit, zero_add, List.map_map]
  rw [show ((fun d => (chartList.map (netContrib u s d)).sum) ∘
      fun i => (⟨Y, 1 + i, 1⟩ : Date)) =
      fun i => (chartList.map fun p => netContrib u s ⟨Y, 1 + i, 1⟩ p).sum from rfl]
  rw [sum_map_swap (List.range M) chartList
    (fun i p => netContrib u s ⟨Y, 1 + i, 1⟩ p)]
  have hper : ∀ p ∈ chartList,
      ((List.range M).map fun i => netContrib u s ⟨Y, 1 + i, 1⟩ p).sum =
        (if p.2.type = revenue then cumulativeBalance u s Y M p.1
         else if p.2.type = expense then -cumulativeBalance u s Y M p.1 else 0) := by
    intro p _
    by_cases h1 : p.2.type = revenue
    · rw [if_pos h1]
      unfold cumulativeBalance
      apply congrArg List.sum
      apply List.map_congr_left
      intro i _
      simp only [netContrib, if_pos h1]
      have h3 : 1 + i = i + 1 := by omega
      rw [h3]
    · by_cases h2 : p.2.type = expense
      · rw [if_neg h1, if_pos h2]
        have hmap : ((List.range M).map fun i => netContrib u s ⟨Y, 1 + i, 1⟩ p) =
            ((List.range M).map fun i => -(s.read (u, p.1, Y, i + 1)).balance) := by
          apply List.map_congr_left
          intro i _
          simp only [netContrib, if_neg h1, if_pos h2]
          have h3 : 1 + i = i + 1 := by omega
          rw [h3]
        rw [hmap, sum_map_neg]
        rfl
      · rw [if_neg h1, if_neg h2]
        have hmap : ((List.range M).map fun i => netContrib u s ⟨Y, 1 + i, 1⟩ p) =
            ((List.range M).map fun _ => (0 : Rat)) := by
          apply List.map_congr_left
          intro i _
          simp only [netContrib, if_neg h1, if_neg h2]
        rw [hmap, sum_map_zero]
  rw [List.map_congr_left hper]
  unfold typeCumSum
  rw [← sum_map_sub]
  apply congrArg List.sum
  apply List.map_congr_left
  intro p _
  cases htp : p.2.type <;> simp [htp]

theorem bsTypeTotal_eq_typeCumSum (u : Nat) (s : Store) (Y M : Nat) (t : AccountType)
    (h : ∀ p ∈ chartList, p.2.type = t →
      0 ≤ cumulativeBalance u s Y M p.1 ∧
        (cumulativeBalance u s Y M p.1 = 0 ∨ 1/100 < cumulativeBalance u s Y M p.1)) :
    bsTypeTotal u s Y M t chartList = typeCumSum u s Y M t := by
  unfold bsTypeTotal typeCumSum
  apply congrArg List.sum
  apply List.map_congr_left
  intro p hp
  by_cases ht : p.2.type = t
  · obtain ⟨h0, hor⟩ := h p hp ht
    rcases hor with hz | hgt
    · rw [hz]
      simp [ht]
    · have habs : |cumulativeBalance u s Y M p.1| = cumulativeBalance u s Y M p.1 :=
        abs_of_nonneg h0
      rw [habs, if_pos ⟨ht, hgt⟩, if_pos ht]
  · rw [if_neg fun hand => ht hand.1, if_neg ht]

theorem chartSignedSum_split (u Y M : Nat) (s : Store) :
    chartSignedSum u Y M s =
      typeCumSum u s Y M asset + typeCumSum u s Y M expense -
        typeCumSum u s Y M liability - typeCumSum u s Y M equity -
        typeCumSum u s Y M revenue := by
  unfold chartSignedSum typeCumSum
  rw [← sum_map_add, ← sum_map_sub, ← sum_map_sub, ← sum_map_sub]
  apply congrArg List.sum
  apply List.map_congr_left
  intro p _
  cases htp : p.2.type <;> simp [typeWeight, htp]

/-- Claim C4 (amended): the balance-sheet identity holds for sequences of
exactly balanced postings whose codes all resolve, dated within months
1..M of the statement's own (and current) year Y, provided every
asset/liability/equity cumulative balance is nonnegative and either zero or
above the 0.01 listing threshold, every revenue/expense monthly balance is
nonnegative, and the period's net income is nonnegative: then
assets.total and liabilities.total + equity.total agree within 0.01.
Without these sign conditions the absolute-value handling of the generator
breaks the identity (see the counterexample). -/
theorem C4_balance_sheet_identity (u Y M day t2 t3 : Nat) (js : List JournalEntry)
    (hM1 : 1 ≤ M) (hM12 : M ≤ 12) (hday : 1 ≤ day)
    (hjs : ∀ j ∈ js,
      (j.entries.map LineEntry.debit_amount).sum =
          (j.entries.map LineEntry.credit_amount).sum ∧
        (∀ e ∈ j.entries, (chartOfAccounts e.account_code).isSome) ∧
        j.date.year = Y ∧ 1 ≤ j.date.month ∧ j.date.month ≤ M)
    (hpos : ∀ p ∈ chartList,
      (p.2.type = asset ∨ p.2.type = liability ∨ p.2.type = equity) →
        0 ≤ cumulativeBalance u (postAll u js emptyStore) Y M p.1 ∧
          (cumulativeBalance u (postAll u js emptyStore) Y M p.1 = 0 ∨
            1/100 < cumulativeBalance u (postAll u js emptyStore) Y M p.1))
    (hre : ∀ p ∈ chartList, (p.2.type = revenue ∨ p.2.type = expense) →
      ∀ i ∈ List.range M,
        0 ≤ ((postAll u js emptyStore).read (u, p.1, Y, i + 1)).balance)
    (hnet : 0 ≤ (generateIncomeStatement u ⟨Y, 1, 1⟩ ⟨Y, M, day⟩
      (postAll u js emptyStore)).net_income) :
    |(generateBalanceSheet u ⟨Y, M, day⟩ ⟨Y, t2, t3⟩ (postAll u js emptyStore)).assets.total -
      ((generateBalanceSheet u ⟨Y, M, day⟩ ⟨Y, t2, t3⟩ (postAll u js emptyStore)).liabilities.total +
        (generateBalanceSheet u ⟨Y, M, day⟩ ⟨Y, t2, t3⟩ (postAll u js emptyStore)).equity.total)| ≤
      1/100 := by
  have hA : (generateBalanceSheet u ⟨Y, M, day⟩ ⟨Y, t2, t3⟩ (postAll u js emptyStore)).assets.total =
      bsTypeTotal u (postAll u js emptyStore) Y M asset chartList := by
    have := congrArg BSAssets.total
      (generateBalanceSheet_assets u ⟨Y, M, day⟩ ⟨Y, t2, t3⟩ (postAll u js emptyStore))
    simpa using this
  have hL : (generateBalanceSheet u ⟨Y, M, day⟩ ⟨Y, t2, t3⟩ (postAll u js emptyStore)).liabilities.total =
      bsTypeTotal u (postAll u js emptyStore) Y M liability chartList := by
    have := congrArg BSLiabilities.total
      (generateBalanceSheet_liabilities u ⟨Y, M, day⟩ ⟨Y, t2, t3⟩ (postAll u js emptyStore))
    simpa using this
  have hQ : (generateBalanceSheet u ⟨Y, M, day⟩ ⟨Y, t2, t3⟩ (postAll u js emptyStore)).equity.total =
      bsTypeTotal u (postAll u js emptyStore) Y M equity chartList +
        (if 1/100 < |(generateIncomeStatement u ⟨Y, 1, 1⟩ ⟨Y, M, day⟩
              (postAll u js emptyStore)).net_income| then
          |(generateIncomeStatement u ⟨Y, 1, 1⟩ ⟨Y, M, day⟩
              (postAll u js emptyStore)).net_income|
        else 0) := by
    have := congrArg BSEquity.total
      (generateBalanceSheet_equity u ⟨Y, M, day⟩ ⟨Y, t2, t3⟩ (postAll u js emptyStore))
    simpa using this
  have hAt := bsTypeTotal_eq_typeCumSum u (postAll u js emptyStore) Y M asset
    fun p hp htp => hpos p hp (Or.inl htp)
  have hLt := bsTypeTotal_eq_typeCumSum u (postAll u js emptyStore) Y M liability
    fun p hp htp => hpos p hp (Or.inr (Or.inl htp))
  have hQt := bsTypeTotal_eq_typeCumSum u (postAll u js emptyStore) Y M equity
    fun p hp htp => hpos p hp (Or.inr (Or.inr htp))
  have hnetEq := net_income_year u Y M day (postAll u js emptyStore) hM1 hM12 hday hre
  have hS := chartSignedSum_postAll u Y M js hjs
  have hsplit := chartSignedSum_split u Y M (postAll u js emptyStore)
  have h0 : typeCumSum u (postAll u js emptyStore) Y M asset +
      typeCumSum u (postAll u js emptyStore) Y M expense -
      typeCumSum u (postAll u js emptyStore) Y M liability -
      typeCumSum u (postAll u js emptyStore) Y M equity -
      typeCumSum u (postAll u js emptyStore) Y M revenue = 0 := by
    rw [← hsplit]
    exact hS
  rw [hA, hL, hQ, hAt, hLt, hQt]
  rw [abs_of_nonneg hnet]
  by_cases hp1 : 1/100 < (generateIncomeStatement u ⟨Y, 1, 1⟩ ⟨Y, M, day⟩
      (postAll u js emptyStore)).net_income
  · rw [if_pos hp1]
    have hz : typeCumSum u (postAll u js emptyStore) Y M asset -
        (typeCumSum u (postAll u js emptyStore) Y M liability +
          (typeCumSum u (postAll u js emptyStore) Y M equity +
            (generateIncomeStatement u ⟨Y, 1, 1⟩ ⟨Y, M, day⟩
              (postAll u js emptyStore)).net_income)) = 0 := by
      rw [hnetEq]
      linarith
    rw [hz]
    simp
  · rw [if_neg hp1]
    have hz : typeCumSum u (postAll u js emptyStore) Y M asset -
        (typeCumSum u (postAll u js emptyStore) Y M liability +
          (typeCumSum u (postAll u js emptyStore) Y M equity + 0)) =
        (generateIncomeStatement u ⟨Y, 1, 1⟩ ⟨Y, M, day⟩
          (postAll u js emptyStore)).net_income := by
      rw [hnetEq]
      linarith
    rw [hz, abs_of_nonneg hnet]
    linarith

/-- The state after the two postings of the C4 counterexample scenario:
a 500 sale into Cash and an 800 rent paid from the bank, both in March
2024 — a valid, balanced sequence ending in a net loss. -/
def c4_state : LedgerState :=
  (createJournalEntry 7 ⟨⟨2024, 3, 10⟩, "rent",
      [⟨5100, 800, 0⟩, ⟨1100, 0, 800⟩]⟩
    (createJournalEntry 7 ⟨⟨2024, 3, 10⟩, "sale",
        [⟨1000, 500, 0⟩, ⟨4000, 0, 500⟩]⟩ ⟨[], emptyStore⟩).2).2

/-- Claim C4 counterexample: two valid balanced postings (a 500 sale and an
800 rent payment) produce a balance sheet with assets.total = 1300 (the
bank's −300 cumulative balance is added as +800 and Cash as +500 by the
absolute-value handling) while liabilities.total + equity.total = 300 (the
−300 net loss plugged as +300), so the claimed identity fails by 1000. -/
theorem C4_counterexample :
    (createJournalEntry 7 ⟨⟨2024, 3, 10⟩, "sale",
        [⟨1000, 500, 0⟩, ⟨4000, 0, 500⟩]⟩ ⟨[], emptyStore⟩).1.isOk = true ∧
      (createJournalEntry 7 ⟨⟨2024, 3, 10⟩, "rent",
          [⟨5100, 800, 0⟩, ⟨1100, 0, 800⟩]⟩
        (createJournalEntry 7 ⟨⟨2024, 3, 10⟩, "sale",
            [⟨1000, 500, 0⟩, ⟨4000, 0, 500⟩]⟩ ⟨[], emptyStore⟩).2).1.isOk = true ∧
      (generateBalanceSheet 7 ⟨2024, 3, 31⟩ ⟨2024, 3, 31⟩ c4_state.buckets).assets.total = 1300 ∧
      (generateBalanceSheet 7 ⟨2024, 3, 31⟩ ⟨2024, 3, 31⟩ c4_state.buckets).liabilities.total = 0 ∧
      (generateBalanceSheet 7 ⟨2024, 3, 31⟩ ⟨2024, 3, 31⟩ c4_state.buckets).equity.total = 300 ∧
      ¬(|(1300 : Rat) - (0 + 300)| ≤ 1/100) ∧
      (generateBalanceSheet 7 ⟨2024, 3, 31⟩ ⟨2024, 3, 31⟩ c4_state.buckets).is_balanced = false := by
  decide

/-- A single balanced sale posting used to exercise the amended C4. -/
def c4_wit_entry : JournalEntry :=
  { date := ⟨2024, 2, 10⟩
  , description := "sale"
  , total_debit := 500, total_credit := 500
  , entries := [⟨1100, "Bank - Current Account", 500, 0⟩,
                ⟨4000, "Sales Revenue", 0, 500⟩] }

/-- Witness for the amended C4: one profitable balanced posting satisfies
every sign condition and the generated balance sheet balances exactly. -/
theorem C4_balance_sheet_identity_witness :
    |(generateBalanceSheet 7 ⟨2024, 3, 31⟩ ⟨2024, 3, 31⟩
        (postAll 7 [c4_wit_entry] emptyStore)).assets.total -
      ((generateBalanceSheet 7 ⟨2024, 3, 31⟩ ⟨2024, 3, 31⟩
          (postAll 7 [c4_wit_entry] emptyStore)).liabilities.total +
        (generateBalanceSheet 7 ⟨2024, 3, 31⟩ ⟨2024, 3, 31⟩
          (postAll 7 [c4_wit_entry] emptyStore)).equity.total)| ≤ 1/100 :=
  C4_balance_sheet_identity 7 2024 3 31 3 31 [c4_wit_entry]
    (by decide) (by decide) (by decide) (by decide) (by decide) (by decide) (by decide)

end KheaiLedger
